import Mathlib

/-!
# ProctorX exam page: violation monitor

A shallow embedding of `frontend/src/pages/ExamPage.jsx`.

The file holds two versions of the `ExamPage` component:

* lines 15-260, the component that is exported (namespace `Live` below): one
  `visibilitychange` listener and an unthrottled `sendWebAlert`;
* lines 271-611, a second version kept in the file as a comment block
  (namespace `Monitor` below): nine listeners, a violation counter and a
  throttled `sendWebAlert`.

React state and refs become fields of one record, a handler becomes the list of
the effectful calls it makes, in source order, and the DOM listener registry is
an explicit list.
-/

namespace ProctorX

/-! ## JavaScript strings -/

/-- ASCII lower-casing of one character. `String.prototype.toLowerCase` is
Unicode-aware, but no character outside `A`-`Z` lower-cases to an ASCII letter
other than `k` (U+212A), so the comparisons of `onKeyDown` against `v`, `c`,
`x`, `s`, `p` are decided by the ASCII part alone. -/
def toLowerChar (c : Char) : Char :=
  if 65 ≤ c.toNat ∧ c.toNat ≤ 90 then Char.ofNat (c.toNat + 32) else c

/-- ASCII upper-casing of one character (only ever applied to one of `v`, `c`,
`x`, `s`, `p`). -/
def toUpperChar (c : Char) : Char :=
  if 97 ≤ c.toNat ∧ c.toNat ≤ 122 then Char.ofNat (c.toNat - 32) else c

/-- `s.toLowerCase()`. -/
def toLowerCase (s : String) : String := String.mk (s.data.map toLowerChar)

/-- `s.toUpperCase()`. -/
def toUpperCase (s : String) : String := String.mk (s.data.map toUpperChar)

/-- The character class `[-:.]` of the regular expression in `handleStartExam`. -/
def isPunct (c : Char) : Bool := c == '-' || c == ':' || c == '.'

/-- `s.replace(/[-:.]/g, '')`: every `-`, `:` and `.` is deleted. -/
def stripPunct (s : String) : String := String.mk (s.data.filter (fun c => !isPunct c))

/-- JavaScript truthiness of a value that is `null`/`undefined` or a string:
`!x` holds for `null` and for the empty string. -/
def truthy : Option String → Bool
  | none => false
  | some s => s != ""

/-! ## Data model -/

/-- The record stored under `proctorUser` in `localStorage`. -/
structure User where
  username : String
  deriving DecidableEq, Repr

/-- Body of `POST /log_data`. -/
structure Payload where
  source : String
  student_id : String
  session_id : String
  alerts : List String
  deriving DecidableEq, Repr

/-- The two event targets listeners are registered on. -/
inductive Target
  | document
  | window
  deriving DecidableEq, Repr

/-- Event type names passed to `addEventListener`. -/
inductive EventType
  | copy
  | cut
  | paste
  | contextmenu
  | keydown
  | visibilitychange
  | blur
  | beforeunload
  | fullscreenchange
  deriving DecidableEq, Repr

/-- The handler functions of both versions of the component, by source name. -/
inductive Handler
  | handleVisibilityChange
  | onCopy
  | onCut
  | onPaste
  | onContext
  | onKeyDown
  | onVisibility
  | onBlur
  | onBeforeUnload
  | onFullScreenChange
  deriving DecidableEq, Repr

/-- One entry of the DOM listener registry. A handler is a closure created by
one run of an effect, so its identity is its name together with the number of
the effect run that created it (`gen`). -/
structure Listener where
  target : Target
  type : EventType
  handler : Handler
  capture : Bool
  gen : Nat
  deriving DecidableEq, Repr

/-- `target.addEventListener(type, handler, capture)`: a listener that is
already registered with the same type, callback and capture flag is not added
again. -/
def addEventListener (ls : List Listener) (l : Listener) : List Listener :=
  if l ∈ ls then ls else ls ++ [l]

/-- `target.removeEventListener(type, handler, capture)`: removes the matching
entry, and does nothing when there is none. -/
def removeEventListener (ls : List Listener) (l : Listener) : List Listener :=
  ls.filter (fun x => x ≠ l)

/-- A browser event as a handler sees it, with the parts of the page state the
handlers read at that moment. -/
inductive BrowserEvent
  | copy
  | cut
  | paste
  | contextmenu
  /-- `key` is `e.key` (`none` when undefined). -/
  | keydown (key : Option String) (ctrlKey metaKey : Bool)
  /-- `hidden` is `document.hidden` when the event fires. -/
  | visibilitychange (hidden : Bool)
  | blur
  | beforeunload
  /-- `fullscreenElement` tells whether `document.fullscreenElement` is non-null
  when the event fires. -/
  | fullscreenchange (fullscreenElement : Bool)
  deriving DecidableEq, Repr

/-- The type name of an event. -/
def BrowserEvent.type : BrowserEvent → EventType
  | .copy => .copy
  | .cut => .cut
  | .paste => .paste
  | .contextmenu => .contextmenu
  | .keydown _ _ _ => .keydown
  | .visibilitychange _ => .visibilitychange
  | .blur => .blur
  | .beforeunload => .beforeunload
  | .fullscreenchange _ => .fullscreenchange

/-- The target whose listeners an event reaches: window focus loss and page
unload fire on `window`, the others are observed on `document`. -/
def BrowserEvent.target : BrowserEvent → Target
  | .blur => .window
  | .beforeunload => .window
  | _ => .document

/-- The effectful calls a handler can make. -/
inductive Effect
  /-- `e.preventDefault()` -/
  | preventDefault
  /-- `setViolations(v => v + 1)` -/
  | setViolations
  /-- `sendWebAlert(alertMessage)` -/
  | sendWebAlert (alertMessage : String)
  /-- `e.returnValue = msg; return msg` -/
  | returnValue (msg : String)
  /-- `console.log(msg)` -/
  | consoleLog (msg : String)
  deriving DecidableEq, Repr

/-- Component state: React state, refs, the listener registry and the log of
requests sent to `/log_data`. `violations` and `lastAlertTs` exist in the second
version only. -/
structure State where
  /-- `user` state -/
  user : Option User
  /-- `userRef.current` -/
  userRef : Option User
  /-- `examId` route parameter -/
  examId : Option String
  /-- `examStarted` state -/
  examStarted : Bool
  /-- `sessionIdRef.current` -/
  sessionId : Option String
  /-- `violations` state -/
  violations : Nat
  /-- `lastAlertTsRef.current`, milliseconds -/
  lastAlertTs : Int
  /-- listeners currently registered by the component -/
  listeners : List Listener
  /-- the cleanup returned by the last effect run, as the run whose handlers it
  removes (`none` when the effect returned nothing or the cleanup has run) -/
  cleanup : Option Nat
  /-- number of effect runs so far -/
  gen : Nat
  /-- bodies of the POSTs to `/log_data`, oldest first -/
  posts : List Payload
  deriving DecidableEq, Repr

/-- State of a freshly rendered component, before any effect has run. -/
def State.init (user userRef : Option User) (examId : Option String) : State :=
  { user := user, userRef := userRef, examId := examId, examStarted := false,
    sessionId := none, violations := 0, lastAlertTs := 0, listeners := [],
    cleanup := none, gen := 0, posts := [] }

/-- The session identifier built by `handleStartExam`:
the template string of line 87 (and 458), with `timestamp` the ISO instant
stripped of `-`, `:` and `.`. -/
def sessionIdOf (examId username iso : String) : String :=
  let timestamp := stripPunct iso
  "exam_" ++ examId ++ "_" ++ username ++ "_" ++ timestamp

/-- The request body built on lines 78 and 345. -/
def alertPayload (u : User) (sessionId alertMessage : String) : Payload :=
  { source := "web", student_id := u.username, session_id := sessionId,
    alerts := [alertMessage] }

/-! ## Handlers -/

/-- `handleVisibilityChange` (lines 61-66, exported version). -/
def handleVisibilityChange (hidden : Bool) : List Effect :=
  if hidden then
    [.consoleLog "User switched tabs or minimized", .sendWebAlert "WEB: Switched tabs"]
  else []

/-- `onCopy` (lines 355-359). -/
def onCopy : List Effect :=
  [.preventDefault, .setViolations, .sendWebAlert "COPY_ATTEMPT"]

/-- `onCut` (lines 360-364). -/
def onCut : List Effect :=
  [.preventDefault, .setViolations, .sendWebAlert "CUT_ATTEMPT"]

/-- `onPaste` (lines 365-369). -/
def onPaste : List Effect :=
  [.preventDefault, .setViolations, .sendWebAlert "PASTE_ATTEMPT"]

/-- `onContext` (lines 370-374). -/
def onContext : List Effect :=
  [.preventDefault, .setViolations, .sendWebAlert "CONTEXT_MENU"]

/-- `onKeyDown` (lines 377-392): two independent `if` statements, one after the
other. -/
def onKeyDown (eKey : Option String) (ctrlKey metaKey : Bool) : List Effect :=
  let key := toLowerCase (eKey.getD "")
  let cmdOrCtrl := ctrlKey || metaKey
  (if cmdOrCtrl && (key == "v" || key == "c" || key == "x" || key == "s" || key == "p") then
      [.preventDefault, .setViolations, .sendWebAlert ("SHORTCUT_" ++ toUpperCase key)]
    else []) ++
  (if eKey == some "F12" then
      [.preventDefault, .setViolations, .sendWebAlert "DEVTOOLS_OPEN_ATTEMPT"]
    else [])

/-- `onVisibility` (lines 395-400). -/
def onVisibility (hidden : Bool) : List Effect :=
  if hidden then [.setViolations, .sendWebAlert "TAB_SWITCH_OR_MINIMIZE"] else []

/-- `onBlur` (lines 401-404). -/
def onBlur : List Effect :=
  [.setViolations, .sendWebAlert "WINDOW_BLUR"]

/-- `onBeforeUnload` (lines 405-411). -/
def onBeforeUnload : List Effect :=
  [.sendWebAlert "PAGE_UNLOAD_ATTEMPT", .returnValue "Leaving will submit/terminate the exam."]

/-- `onFullScreenChange` (lines 424-429). -/
def onFullScreenChange (fullscreenElement : Bool) : List Effect :=
  if !fullscreenElement then [.setViolations, .sendWebAlert "EXIT_FULLSCREEN"] else []

/-- What a handler does when it is called with an event. A handler is only ever
registered for one event type; called with an event of another shape it reads
`undefined` for the fields it looks at. -/
def Handler.call : Handler → BrowserEvent → List Effect
  | .handleVisibilityChange, .visibilitychange hidden => ProctorX.handleVisibilityChange hidden
  | .handleVisibilityChange, _ => ProctorX.handleVisibilityChange false
  | .onCopy, _ => ProctorX.onCopy
  | .onCut, _ => ProctorX.onCut
  | .onPaste, _ => ProctorX.onPaste
  | .onContext, _ => ProctorX.onContext
  | .onKeyDown, .keydown key ctrlKey metaKey => ProctorX.onKeyDown key ctrlKey metaKey
  | .onKeyDown, _ => ProctorX.onKeyDown none false false
  | .onVisibility, .visibilitychange hidden => ProctorX.onVisibility hidden
  | .onVisibility, _ => ProctorX.onVisibility false
  | .onBlur, _ => ProctorX.onBlur
  | .onBeforeUnload, _ => ProctorX.onBeforeUnload
  | .onFullScreenChange, .fullscreenchange fs => ProctorX.onFullScreenChange fs
  | .onFullScreenChange, _ => ProctorX.onFullScreenChange false

/-- A registered listener is called for the events of its type on its target. -/
def Listener.listensTo (l : Listener) (e : BrowserEvent) : Bool :=
  l.type == e.type && l.target == e.target

/-- Run the calls of one handler, in order, at clock value `now`, with `send`
the `sendWebAlert` of the component version the handler belongs to. -/
def runEffects (send : State → Int → String → State) (now : Int) :
    State → List Effect → State
  | s, [] => s
  | s, .preventDefault :: es => runEffects send now s es
  | s, .setViolations :: es =>
      runEffects send now { s with violations := s.violations + 1 } es
  | s, .sendWebAlert m :: es => runEffects send now (send s now m) es
  | s, .returnValue _ :: es => runEffects send now s es
  | s, .consoleLog _ :: es => runEffects send now s es

/-- Dispatch of one browser event: every registered listener for it is called,
in registration order. -/
def dispatchWith (send : State → Int → String → State) (s : State)
    (e : BrowserEvent) (now : Int) : State :=
  (s.listeners.filter (fun l => l.listensTo e)).foldl
    (fun st l => runEffects send now st (l.handler.call e)) s

/-- Session start shared by both versions of `handleStartExam` (lines 85-87 and
456-458): the guard and the assignment to `sessionIdRef.current`. `iso` is the
value of `new Date().toISOString()`. Returns `none` on the early return. -/
def newSessionId (s : State) (iso : String) : Option String :=
  match s.user, s.examId with
  | some u, some x => if x != "" then some (sessionIdOf x u.username iso) else none
  | _, _ => none

/-- Two states that differ at most in the violation counter, the throttle
timestamp and the request log. -/
def Frame (s t : State) : Prop :=
  t = { s with violations := t.violations, lastAlertTs := t.lastAlertTs, posts := t.posts }

/-! ## Exported version (lines 15-260) -/

namespace Live

/-- `sendWebAlert` (lines 76-81). The outcome of the request changes nothing in
the component: a failure is only written to the console. -/
def sendWebAlert (s : State) (_now : Int) (alertMessage : String) : State :=
  match s.userRef with
  | none => s
  | some u =>
    if !truthy s.sessionId then s
    else { s with posts := s.posts ++ [alertPayload u (s.sessionId.getD "") alertMessage] }

/-- The listener the effect of lines 60-73 registers in its run number `g`. -/
def listener (g : Nat) : Listener :=
  { target := .document, type := .visibilitychange, handler := .handleVisibilityChange,
    capture := false, gen := g }

/-- The cleanup function returned by run `g` of the effect (lines 70-72). -/
def cleanup (g : Nat) (ls : List Listener) : List Listener :=
  removeEventListener ls (listener g)

/-- One run of the effect body (lines 60-73): it always returns a cleanup. -/
def effect (s : State) : State :=
  let g := s.gen
  { s with
    listeners := if s.examStarted then addEventListener s.listeners (listener g) else s.listeners,
    cleanup := some g,
    gen := g + 1 }

/-- React runs the pending cleanup of the effect, if there is one. -/
def runCleanup (s : State) : State :=
  match s.cleanup with
  | none => s
  | some g => { s with listeners := cleanup g s.listeners, cleanup := none }

/-- The effect has `[examStarted]` as dependencies: a state update that changes
the value re-renders, runs the previous cleanup and then the effect again; an
update to the same value does nothing. -/
def setExamStarted (s : State) (b : Bool) : State :=
  if s.examStarted = b then s else effect (runCleanup { s with examStarted := b })

/-- `handleStartExam` (lines 84-90). -/
def handleStartExam (s : State) (iso : String) : State :=
  match newSessionId s iso with
  | none => s
  | some sid => setExamStarted { s with sessionId := some sid } true

/-- Dispatch of a browser event to the registered listeners. -/
def dispatch (s : State) (e : BrowserEvent) (now : Int) : State :=
  dispatchWith sendWebAlert s e now

/-- The component after its first render: the effect has run once. -/
def mount (user userRef : Option User) (examId : Option String) : State :=
  effect (State.init user userRef examId)

/-- Unmounting runs the pending cleanup. -/
def unmount (s : State) : State := runCleanup s

/-- What can happen to a mounted component. -/
inductive Action
  | setExamStarted (b : Bool)
  | handleStartExam (iso : String)
  | event (e : BrowserEvent) (now : Int)
  deriving DecidableEq, Repr

/-- One transition. -/
def step (s : State) : Action → State
  | .setExamStarted b => setExamStarted s b
  | .handleStartExam iso => handleStartExam s iso
  | .event e now => dispatch s e now

/-- A run of transitions. -/
def run (s : State) (as : List Action) : State := as.foldl step s

/-- States the mounted component can be in. -/
def Reachable (s : State) : Prop :=
  ∃ user userRef examId as, s = run (mount user userRef examId) as

/-- A concrete session used in the examples: user `alice`, exam `42`, started
at `2024-01-01T12:00:00.000Z`. -/
def started : State :=
  handleStartExam (mount (some ⟨"alice"⟩) (some ⟨"alice"⟩) (some "42"))
    "2024-01-01T12:00:00.000Z"

/-- The registry invariant of the exported version: a cleanup is always
pending, and the listener of the current run is registered exactly when the
exam is started. -/
def Inv (s : State) : Prop :=
  ∃ g, s.cleanup = some g ∧ s.listeners = if s.examStarted then [listener g] else []

end Live

/-! ## Second version (lines 271-611) -/

namespace Monitor

/-- `sendWebAlert` (lines 340-348), called at clock value `now = Date.now()`.
The throttle test and the write to `lastAlertTsRef` come before the test of
user and session. -/
def sendWebAlert (s : State) (now : Int) (alertMessage : String) : State :=
  if now - s.lastAlertTs < 1500 then s
  else
    let s1 := { s with lastAlertTs := now }
    match s1.userRef with
    | none => s1
    | some u =>
      if !truthy s1.sessionId then s1
      else { s1 with posts := s1.posts ++ [alertPayload u (s1.sessionId.getD "") alertMessage] }

/-- The listeners registered by run `g` of the effect, in the order of the
`addEventListener` calls of lines 414-421 and 430. -/
def listeners (g : Nat) : List Listener :=
  [ { target := .document, type := .copy, handler := .onCopy, capture := false, gen := g },
    { target := .document, type := .cut, handler := .onCut, capture := false, gen := g },
    { target := .document, type := .paste, handler := .onPaste, capture := false, gen := g },
    { target := .document, type := .contextmenu, handler := .onContext, capture := false, gen := g },
    { target := .document, type := .keydown, handler := .onKeyDown, capture := true, gen := g },
    { target := .document, type := .visibilitychange, handler := .onVisibility, capture := false, gen := g },
    { target := .window, type := .blur, handler := .onBlur, capture := false, gen := g },
    { target := .window, type := .beforeunload, handler := .onBeforeUnload, capture := false, gen := g },
    { target := .document, type := .fullscreenchange, handler := .onFullScreenChange, capture := false, gen := g } ]

/-- The cleanup function returned by run `g` of the effect (lines 442-452): one
`removeEventListener` call per listener. -/
def cleanup (g : Nat) (ls : List Listener) : List Listener :=
  (listeners g).foldl removeEventListener ls

/-- One run of the effect body (lines 351-453). When `examStarted` is false it
returns at once, without a cleanup. -/
def effect (s : State) : State :=
  let g := s.gen
  if !s.examStarted then { s with cleanup := none, gen := g + 1 }
  else
    { s with
      listeners := (listeners g).foldl addEventListener s.listeners,
      cleanup := some g,
      gen := g + 1 }

/-- React runs the pending cleanup of the effect, if there is one. -/
def runCleanup (s : State) : State :=
  match s.cleanup with
  | none => s
  | some g => { s with listeners := cleanup g s.listeners, cleanup := none }

/-- The effect has `[examStarted]` as dependencies: a state update that changes
the value re-renders, runs the previous cleanup and then the effect again; an
update to the same value does nothing. -/
def setExamStarted (s : State) (b : Bool) : State :=
  if s.examStarted = b then s else effect (runCleanup { s with examStarted := b })

/-- `handleStartExam` (lines 455-463): as in the exported version, followed by
the "Exam Started" request, which does not go through `sendWebAlert`. -/
def handleStartExam (s : State) (iso : String) : State :=
  match newSessionId s iso, s.user with
  | some sid, some u =>
    let s1 := setExamStarted { s with sessionId := some sid } true
    { s1 with posts := s1.posts ++ [alertPayload u sid "Exam Started"] }
  | _, _ => s

/-- Dispatch of a browser event to the registered listeners. -/
def dispatch (s : State) (e : BrowserEvent) (now : Int) : State :=
  dispatchWith sendWebAlert s e now

/-- The component after its first render: the effect has run once. -/
def mount (user userRef : Option User) (examId : Option String) : State :=
  effect (State.init user userRef examId)

/-- Unmounting runs the pending cleanup. -/
def unmount (s : State) : State := runCleanup s

/-- What can happen to a mounted component. -/
inductive Action
  | setExamStarted (b : Bool)
  | handleStartExam (iso : String)
  | event (e : BrowserEvent) (now : Int)
  deriving DecidableEq, Repr

/-- One transition. -/
def step (s : State) : Action → State
  | .setExamStarted b => setExamStarted s b
  | .handleStartExam iso => handleStartExam s iso
  | .event e now => dispatch s e now

/-- A run of transitions. -/
def run (s : State) (as : List Action) : State := as.foldl step s

/-- States the mounted component can be in. -/
def Reachable (s : State) : Prop :=
  ∃ user userRef examId as, s = run (mount user userRef examId) as

/-- Dispatch of a sequence of timed browser events, in order. -/
def dispatchAll (s : State) (es : List (BrowserEvent × Int)) : State :=
  es.foldl (fun st p => dispatch st p.1 p.2) s

/-- The conditions of the classification table: the events the monitor treats
as a violation. -/
def qualifying : BrowserEvent → Bool
  | .copy => true
  | .cut => true
  | .paste => true
  | .contextmenu => true
  | .keydown key ctrlKey metaKey =>
      ((ctrlKey || metaKey) &&
        (toLowerCase (key.getD "") ∈ ["v", "c", "x", "s", "p"])) || key == some "F12"
  | .visibilitychange hidden => hidden
  | .blur => true
  | .beforeunload => true
  | .fullscreenchange fullscreenElement => !fullscreenElement

/-- A concrete session used in the examples: user `alice`, exam `42`, started
at `2024-01-01T12:00:00.000Z`. -/
def started : State :=
  handleStartExam (mount (some ⟨"alice"⟩) (some ⟨"alice"⟩) (some "42"))
    "2024-01-01T12:00:00.000Z"

/-- The registry invariant of the second version: when the exam is started the
nine listeners of the current run are registered and their cleanup is pending;
otherwise nothing is registered and no cleanup is pending. -/
def Inv (s : State) : Prop :=
  if s.examStarted then ∃ g, s.cleanup = some g ∧ s.listeners = listeners g
  else s.cleanup = none ∧ s.listeners = []

/-- The calls made for event `e` when the nine listeners are registered: those
of the one handler registered for the type of `e`. -/
def handle : BrowserEvent → List Effect
  | .copy => onCopy
  | .cut => onCut
  | .paste => onPaste
  | .contextmenu => onContext
  | .keydown key ctrlKey metaKey => onKeyDown key ctrlKey metaKey
  | .visibilitychange hidden => onVisibility hidden
  | .blur => onBlur
  | .beforeunload => onBeforeUnload
  | .fullscreenchange fs => onFullScreenChange fs

end Monitor

/-! ## Sequences of alerts, default suppression, faults -/

/-- A sequence of calls `sendWebAlert(label)` of the second version, each at its
own clock value, in order. -/
def Monitor.sendAll (s : State) (alerts : List (Int × String)) : State :=
  alerts.foldl (fun st a => Monitor.sendWebAlert st a.1 a.2) s

/-- Whether `e.preventDefault()` is called while event `e` is dispatched: some
registered listener for `e` calls it. -/
def defaultPrevented (s : State) (e : BrowserEvent) : Bool :=
  (s.listeners.filter (fun l => l.listensTo e)).any
    (fun l => (l.handler.call e).contains Effect.preventDefault)

/-- Result of running a statement sequence that may raise: it ran to its end,
or it raised `err` and the statements after the raising one were not run. In
both cases `state` is what had been done by then. -/
inductive Completion (σ : Type)
  | done (state : σ)
  | raised (state : σ) (err : String)
  deriving DecidableEq, Repr

/-- The state a completion ends in. -/
def Completion.state {σ : Type} : Completion σ → σ
  | .done s => s
  | .raised s _ => s

/-- The `addEventListener` statements of lines 414-430, one after the other and
without `try`, where `raises l` tells whether the call registering `l` raises:
a raising call ends the sequence. -/
def attachAll (raises : Listener → Bool) :
    List Listener → List Listener → Completion (List Listener)
  | [], reg => .done reg
  | l :: rest, reg =>
    if raises l then .raised reg "addEventListener raised"
    else attachAll raises rest (addEventListener reg l)

/-- The `removeEventListener` statements of lines 443-451, one after the other
and without `try`, where `raises l` tells whether the call removing `l`
raises. -/
def detachAll (raises : Listener → Bool) :
    List Listener → List Listener → Completion (List Listener)
  | [], reg => .done reg
  | l :: rest, reg =>
    if raises l then .raised reg "removeEventListener raised"
    else detachAll raises rest (removeEventListener reg l)

/-! ## Page state and network outcomes -/

/-- Outcome of an HTTP request made with `axios`: the promise resolves with the
response data or rejects with an error. -/
inductive Response (α : Type)
  | ok (data : α)
  | fail (err : String)
  deriving DecidableEq, Repr

/-- One question of `GET /api/exams/:examId/questions`. -/
structure Question where
  id : String
  prompt : String
  choices : Option (List String)
  deriving DecidableEq, Repr

/-- A request other than the `/log_data` alerts (those are logged in
`State.posts`). -/
inductive Request
  /-- `GET /api/exam_details/:examId` -/
  | getExamDetails (examId : String)
  /-- `GET /api/exams/:examId/questions` -/
  | getQuestions (examId : String)
  /-- `POST /api/submit_exam` -/
  | submitExam (student_id : String) (exam_id : Option String) (session_id : String)
      (answers : List (String × String))
  deriving DecidableEq, Repr

/-- The whole component: the monitor state together with the React state the
views depend on and what the user has been shown. -/
structure Page where
  core : State
  /-- `loading` state -/
  loading : Bool
  /-- `error` state -/
  error : String
  /-- `exam` state: the response data of the details request -/
  exam : Option String
  /-- `questions` state -/
  questions : List Question
  /-- `loadingQuestions` state -/
  loadingQuestions : Bool
  /-- `answers` state -/
  answers : List (String × String)
  /-- messages shown with `alert(...)`, oldest first -/
  alerts : List String
  /-- target of the last `navigate(...)` call -/
  route : Option String
  /-- `console.error` and `console.warn` lines -/
  console : List String
  /-- requests issued, oldest first -/
  requests : List Request
  deriving DecidableEq, Repr

/-- Initial values of the `useState` calls (lines 16-20, 273-285). -/
def Page.init (core : State) : Page :=
  { core := core, loading := true, error := "", exam := none, questions := [],
    loadingQuestions := false, answers := [], alerts := [], route := none,
    console := [], requests := [] }

/-- `await axios.post(API_URL + "/log_data", payload)`: the request is issued,
then the call returns or raises according to the outcome `r`. -/
def axiosPostLog (p : Page) (payload : Payload) (r : Response Unit) : Completion Page :=
  let p1 := { p with core := { p.core with posts := p.core.posts ++ [payload] } }
  match r with
  | .ok _ => .done p1
  | .fail err => .raised p1 err

/-- `await axios.get(url)` or `await axios.post(url, body)` for the other
endpoints. -/
def axiosRequest {α : Type} (p : Page) (req : Request) (r : Response α) :
    Completion (Page × Option α) :=
  let p1 := { p with requests := p.requests ++ [req] }
  match r with
  | .ok data => .done (p1, some data)
  | .fail err => .raised (p1, none) err

/-- The four views of the render logic. -/
inductive View
  | loading
  /-- the error view, with the message and the target of its one button -/
  | error (message : String) (backTo : String)
  | instructions
  | exam
  deriving DecidableEq, Repr

/-- Render logic (lines 95-114 and 492-509, the same in both versions). -/
def render (p : Page) : View :=
  if p.loading || p.core.user.isNone then .loading
  else if p.error != "" then .error p.error "/student/dashboard"
  else if !p.core.examStarted then .instructions
  else .exam

/-- `fetchExamDetails` (lines 43-55 and 303-315); `msg` is the error text, which
differs between the two versions. -/
def fetchExamDetails (msg : String) (p : Page) (examId : String) (r : Response String) : Page :=
  let p1 := { p with loading := true, error := "" }
  let p2 :=
    match axiosRequest p1 (.getExamDetails examId) r with
    | .done (q, data) => { q with exam := data }
    | .raised (q, _) err =>
      { q with console := q.console ++ ["Error fetching exam details: " ++ err], error := msg }
  { p2 with loading := false }

/-- The effect of lines 38-57 and 298-317, with dependencies `[examId, user]`. -/
def detailsEffect (msg : String → String) (p : Page) (r : Response String) : Page :=
  match p.core.examId, p.core.user with
  | some x, some _ =>
    if x != "" then fetchExamDetails (msg x) p x r else { p with loading := false }
  | _, some _ => { p with loading := false }
  | _, none => p

/-- Error text of line 51 (exported version). -/
def Live.detailsError (examId : String) : String :=
  "Failed to load exam details (ID: " ++ examId ++ "). Please check the ID or contact support."

/-- Error text of line 311 (second version). -/
def Monitor.detailsError (examId : String) : String :=
  "Failed to load exam details (ID: " ++ examId ++ ")."

/-- `fetchQuestions` (lines 321-335, second version only). -/
def fetchQuestions (p : Page) (examId : String) (r : Response (List Question)) : Page :=
  let p1 := { p with loadingQuestions := true }
  let p2 :=
    match axiosRequest p1 (.getQuestions examId) r with
    | .done (q, data) =>
      { q with questions := data.getD [],
               answers := (data.getD []).map (fun (qu : Question) => (qu.id, "")) }
    | .raised (q, _) err =>
      { q with console := q.console ++ ["Could not load questions: " ++ err], questions := [] }
  { p2 with loadingQuestions := false }

/-- The effect of lines 319-337, with dependencies `[examId, user]`. -/
def questionsEffect (p : Page) (r : Response (List Question)) : Page :=
  match p.core.examId, p.core.user with
  | some x, some _ => if x != "" then fetchQuestions p x r else p
  | _, _ => p

namespace LivePage

/-- `sendWebAlert` (lines 76-81) with the outcome `r` of its request. -/
def sendWebAlert (p : Page) (_now : Int) (alertMessage : String) (r : Response Unit) :
    Completion Page :=
  match p.core.userRef with
  | none => .done p
  | some u =>
    if !truthy p.core.sessionId then .done p
    else
      match axiosPostLog p (alertPayload u (p.core.sessionId.getD "") alertMessage) r with
      | .done q => .done q
      | .raised q err =>
        .done { q with console := q.console ++ ["Failed to send web alert: " ++ err] }

end LivePage

namespace MonitorPage

/-- `sendWebAlert` (lines 340-348) with the outcome `r` of its request. -/
def sendWebAlert (p : Page) (now : Int) (alertMessage : String) (r : Response Unit) :
    Completion Page :=
  if now - p.core.lastAlertTs < 1500 then .done p
  else
    let p1 := { p with core := { p.core with lastAlertTs := now } }
    match p1.core.userRef with
    | none => .done p1
    | some u =>
      if !truthy p1.core.sessionId then .done p1
      else
        match axiosPostLog p1 (alertPayload u (p1.core.sessionId.getD "") alertMessage) r with
        | .done q => .done q
        | .raised q err =>
          .done { q with console := q.console ++ ["Failed to send web alert: " ++ err] }

/-- `handleStartExam` (lines 455-463) with the outcome `r` of the "Exam Started"
request: the `catch` block is empty. -/
def handleStartExam (p : Page) (iso : String) (r : Response Unit) : Completion Page :=
  match newSessionId p.core iso, p.core.user with
  | some sid, some u =>
    let p1 := { p with core := Monitor.setExamStarted { p.core with sessionId := some sid } true }
    match axiosPostLog p1 (alertPayload u sid "Exam Started") r with
    | .done q => .done q
    | .raised q _ => .done q
  | _, _ => .done p

/-- `submitExam` (lines 469-489): both requests are inside one `try`, followed
by `catch` and `finally`. -/
def submitExam (p : Page) (rSubmit rLog : Response Unit) : Completion Page :=
  match p.core.userRef with
  | none => .done p
  | some u =>
    if !truthy p.core.sessionId then .done p
    else
      let sid := p.core.sessionId.getD ""
      let p1 := { p with loading := true }
      let tried : Completion Page :=
        match axiosRequest p1 (.submitExam u.username p1.core.examId sid p1.answers) rSubmit with
        | .raised (q, _) err => .raised q err
        | .done (q, _) =>
          match axiosPostLog q (alertPayload u sid "Exam Finished") rLog with
          | .raised q2 err => .raised q2 err
          | .done q2 =>
            .done { q2 with alerts := q2.alerts ++ ["Exam submitted. Redirecting to dashboard."],
                            route := some "/student/dashboard" }
      let caught : Page :=
        match tried with
        | .done q => q
        | .raised q err =>
          { q with console := q.console ++ ["Submit failed: " ++ err],
                   alerts := q.alerts ++ ["Failed to submit exam. Try again."] }
      .done { caught with loading := false }

/-- A page in the started session of `alice` with the exam details loaded. -/
def started : Page :=
  { Page.init Monitor.started with loading := false, exam := some "Algebra" }

end MonitorPage

/-! ## Theme provider (`Theme_provider.jsx`) -/

namespace ThemeProvider

/-- What the effects read from `window`: the class list of
`document.documentElement` as a sequence of tokens, and whether the media
query `(prefers-color-scheme: dark)` matches. -/
structure Window where
  classList : List String
  prefersDark : Bool
  deriving DecidableEq, Repr

/-- `root.classList.remove("light", "dark")`. -/
def removeLightDark (cl : List String) : List String :=
  cl.filter (fun c => !(c == "light" || c == "dark"))

/-- `root.classList.add(t)`: a token already present is not added again. -/
def classListAdd (cl : List String) (t : String) : List String :=
  if t ∈ cl then cl else cl ++ [t]

/-- `apply` (lines 27-34), on the class list. -/
def apply (prefersDark : Bool) (cl : List String) (t : String) : List String :=
  if t == "system" then classListAdd cl (if prefersDark then "dark" else "light")
  else classListAdd cl t

/-- The layout effect of lines 21-37; `none` is the case
`typeof window === "undefined"`. -/
def layoutEffect (theme : String) : Option Window → Option Window
  | none => none
  | some w =>
    some { w with classList := apply w.prefersDark (removeLightDark w.classList) theme }

/-- The media-query change handler of lines 43-49; `isDark` is `mq.matches`
when the handler runs. -/
def handler (theme : String) (w : Window) (isDark : Bool) : Window :=
  if theme == "system" then
    { classList := classListAdd (removeLightDark w.classList) (if isDark then "dark" else "light"),
      prefersDark := isDark }
  else { w with prefersDark := isDark }

/-- Exactly one of the classes `light` and `dark` is present, and it is `c`. -/
def OnlyClass (cl : List String) (c : String) : Prop :=
  (c = "light" ∨ c = "dark") ∧ cl.count c = 1 ∧
    ∀ d, (d = "light" ∨ d = "dark") → d ≠ c → d ∉ cl

end ThemeProvider

/-! ## Sessions, fullscreen changes, the exported handlers -/

/-- The calls the component code makes: `examStarted` is only ever set inside
`handleStartExam` (line 459), never on its own. -/
def Monitor.codeAction : Monitor.Action → Bool
  | .setExamStarted _ => false
  | .handleStartExam _ => true
  | .event _ _ => true

/-- States the second version reaches by the calls its code makes. `user` and
`userRef.current` hold the same stored record, since lines 290-292 set them
together. -/
def Monitor.InSession (s : State) : Prop :=
  ∃ (u : Option User) (x : Option String) (as : List Monitor.Action),
    (∀ a ∈ as, Monitor.codeAction a = true) ∧ s = Monitor.run (Monitor.mount u u x) as

/-- When a browser fires `fullscreenchange` on a document: its fullscreen
element has changed. `hadElement` and `hasElement` tell whether
`document.fullscreenElement` was non-null before the change and is non-null
when the event is handled; the event is never fired with no fullscreen element
on both sides. -/
def fullscreenChangeFires (hadElement hasElement : Bool) : Bool :=
  hadElement || hasElement

/-- `handleStartExam` of the exported version (lines 84-90) on the page: it
makes no request. -/
def LivePage.handleStartExam (p : Page) (iso : String) : Completion Page :=
  .done { p with core := Live.handleStartExam p.core iso }

/-- The `onClick` handler of the Submit button of the exported version (lines
245-249): it makes no request. -/
def LivePage.onSubmitClick (p : Page) : Completion Page :=
  .done { p with alerts := p.alerts ++ ["Exam submitted! Proctoring data has been saved."],
                 route := some "/student/dashboard" }

/-! ## Frame and registry lemmas -/

theorem Frame.refl (s : State) : Frame s s := by
  cases s; rfl

theorem Frame.trans {s t u : State} (h1 : Frame s t) (h2 : Frame t u) : Frame s u := by
  cases s; cases t; cases u
  simp only [Frame, State.mk.injEq] at *
  obtain ⟨a1, a2, a3, a4, a5, -, -, a6, a7, a8, -⟩ := h1
  obtain ⟨b1, b2, b3, b4, b5, -, -, b6, b7, b8, -⟩ := h2
  subst a1 a2 a3 a4 a5 a6 a7 a8
  simp_all

theorem Frame.listeners {s t : State} (h : Frame s t) : t.listeners = s.listeners := by
  rw [h]

theorem Frame.examStarted {s t : State} (h : Frame s t) : t.examStarted = s.examStarted := by
  rw [h]

theorem Frame.cleanup {s t : State} (h : Frame s t) : t.cleanup = s.cleanup := by
  rw [h]

theorem Frame.userRef {s t : State} (h : Frame s t) : t.userRef = s.userRef := by
  rw [h]

theorem Frame.sessionId {s t : State} (h : Frame s t) : t.sessionId = s.sessionId := by
  rw [h]

theorem runEffects_frame (send : State → Int → String → State)
    (hsend : ∀ s now m, Frame s (send s now m)) (now : Int) (es : List Effect) :
    ∀ s, Frame s (runEffects send now s es) := by
  induction es with
  | nil => intro s; exact Frame.refl s
  | cons e es ih =>
    intro s
    cases e with
    | preventDefault => simpa [runEffects] using ih s
    | setViolations =>
      simp only [runEffects]
      refine Frame.trans ?_ (ih _)
      cases s; rfl
    | sendWebAlert m =>
      simp only [runEffects]
      exact Frame.trans (hsend s now m) (ih _)
    | returnValue m => simpa [runEffects] using ih s
    | consoleLog m => simpa [runEffects] using ih s

theorem foldl_frame (send : State → Int → String → State)
    (hsend : ∀ s now m, Frame s (send s now m)) (now : Int) (e : BrowserEvent)
    (ls : List Listener) :
    ∀ s, Frame s (ls.foldl (fun st l => runEffects send now st (l.handler.call e)) s) := by
  induction ls with
  | nil => intro s; exact Frame.refl s
  | cons l ls ih =>
    intro s
    simp only [List.foldl_cons]
    exact Frame.trans (runEffects_frame send hsend now _ s) (ih _)

theorem dispatchWith_frame (send : State → Int → String → State)
    (hsend : ∀ s now m, Frame s (send s now m)) (s : State) (e : BrowserEvent) (now : Int) :
    Frame s (dispatchWith send s e now) :=
  foldl_frame send hsend now e _ s

theorem dispatchWith_nil (send : State → Int → String → State) (s : State)
    (e : BrowserEvent) (now : Int) (h : s.listeners = []) :
    dispatchWith send s e now = s := by
  simp [dispatchWith, h]

theorem foldl_remove_eq_filter (L ls : List Listener) :
    L.foldl removeEventListener ls = ls.filter (fun x => decide (x ∉ L)) := by
  induction L generalizing ls with
  | nil => simp
  | cons l L ih =>
    simp only [List.foldl_cons, ih, removeEventListener, List.filter_filter]
    congr 1
    funext x
    simp [List.mem_cons, not_or, Bool.and_comm]

/-! ## Lemmas on the exported version -/

namespace Live

theorem live_sendWebAlert_frame (s : State) (now : Int) (m : String) :
    Frame s (sendWebAlert s now m) := by
  unfold sendWebAlert
  split
  · exact Frame.refl s
  · split
    · exact Frame.refl s
    · cases s; rfl

theorem live_dispatch_frame (s : State) (e : BrowserEvent) (now : Int) :
    Frame s (dispatch s e now) :=
  dispatchWith_frame sendWebAlert live_sendWebAlert_frame s e now

theorem live_cleanup_eq_filter (g : Nat) (ls : List Listener) :
    cleanup g ls = ls.filter (fun x => decide (x ≠ listener g)) := rfl

theorem live_inv_mount (user userRef : Option User) (examId : Option String) :
    Inv (mount user userRef examId) :=
  ⟨0, rfl, rfl⟩

theorem live_inv_setExamStarted (s : State) (b : Bool) (h : Inv s) : Inv (setExamStarted s b) := by
  unfold setExamStarted
  split
  · exact h
  · rename_i hne
    obtain ⟨g, hc, hl⟩ := h
    refine ⟨s.gen, by simp [effect, runCleanup, hc], ?_⟩
    cases b <;> cases hb : s.examStarted <;>
      simp_all [effect, runCleanup, cleanup, removeEventListener, addEventListener]

theorem live_inv_sessionId (s : State) (sid : Option String) (h : Inv s) :
    Inv { s with sessionId := sid } := h

theorem live_inv_handleStartExam (s : State) (iso : String) (h : Inv s) :
    Inv (handleStartExam s iso) := by
  unfold handleStartExam
  split
  · exact h
  · exact live_inv_setExamStarted _ true (live_inv_sessionId s _ h)

theorem live_inv_dispatch (s : State) (e : BrowserEvent) (now : Int) (h : Inv s) :
    Inv (dispatch s e now) := by
  have hf := live_dispatch_frame s e now
  obtain ⟨g, hc, hl⟩ := h
  exact ⟨g, by rw [hf.cleanup, hc], by rw [hf.listeners, hf.examStarted, hl]⟩

theorem live_inv_step (s : State) (a : Action) (h : Inv s) : Inv (step s a) := by
  cases a with
  | setExamStarted b => exact live_inv_setExamStarted s b h
  | handleStartExam iso => exact live_inv_handleStartExam s iso h
  | event e now => exact live_inv_dispatch s e now h

theorem live_inv_run (as : List Action) : ∀ s, Inv s → Inv (run s as) := by
  induction as with
  | nil => intro s h; exact h
  | cons a as ih => intro s h; exact ih _ (live_inv_step s a h)

theorem live_inv_of_reachable {s : State} (h : Reachable s) : Inv s := by
  obtain ⟨user, userRef, examId, as, rfl⟩ := h
  exact live_inv_run as _ (live_inv_mount user userRef examId)

end Live

/-! ## Lemmas on the second version -/

namespace Monitor

theorem sendWebAlert_frame (s : State) (now : Int) (m : String) :
    Frame s (sendWebAlert s now m) := by
  unfold sendWebAlert
  split
  · exact Frame.refl s
  · dsimp only
    split
    · cases s; rfl
    · split
      · cases s; rfl
      · cases s; rfl

theorem dispatch_frame (s : State) (e : BrowserEvent) (now : Int) :
    Frame s (dispatch s e now) :=
  dispatchWith_frame sendWebAlert sendWebAlert_frame s e now

theorem cleanup_eq_filter (g : Nat) (ls : List Listener) :
    cleanup g ls = ls.filter (fun x => decide (x ∉ listeners g)) :=
  foldl_remove_eq_filter (listeners g) ls

theorem attach_nil (g : Nat) : (listeners g).foldl addEventListener [] = listeners g := by
  simp [listeners, addEventListener]

theorem cleanup_listeners (g : Nat) : cleanup g (listeners g) = [] := by
  rw [cleanup_eq_filter]
  simp

theorem inv_mount (user userRef : Option User) (examId : Option String) :
    Inv (mount user userRef examId) := by
  simp [Inv, mount, effect, State.init]

theorem inv_setExamStarted (s : State) (b : Bool) (h : Inv s) : Inv (setExamStarted s b) := by
  unfold setExamStarted
  split
  · exact h
  · rename_i hne
    cases b <;> cases hb : s.examStarted <;> simp [hb] at hne
    · simp only [Inv, hb, if_true] at h
      obtain ⟨g, hc, hl⟩ := h
      simp [Inv, effect, runCleanup, hc, hl, cleanup_listeners]
    · simp only [Inv, hb] at h
      simp [Inv, effect, runCleanup, h.1, h.2, attach_nil]

theorem inv_sessionId (s : State) (sid : Option String) (h : Inv s) :
    Inv { s with sessionId := sid } := h

theorem inv_posts (s : State) (ps : List Payload) (h : Inv s) :
    Inv { s with posts := ps } := h

theorem inv_handleStartExam (s : State) (iso : String) (h : Inv s) :
    Inv (handleStartExam s iso) := by
  unfold handleStartExam
  split
  · exact inv_posts _ _ (inv_setExamStarted _ true (inv_sessionId s _ h))
  · exact h

theorem inv_dispatch (s : State) (e : BrowserEvent) (now : Int) (h : Inv s) :
    Inv (dispatch s e now) := by
  have hf := dispatch_frame s e now
  unfold Inv at *
  rw [hf.cleanup, hf.listeners, hf.examStarted]
  exact h

theorem inv_step (s : State) (a : Action) (h : Inv s) : Inv (step s a) := by
  cases a with
  | setExamStarted b => exact inv_setExamStarted s b h
  | handleStartExam iso => exact inv_handleStartExam s iso h
  | event e now => exact inv_dispatch s e now h

theorem inv_run (as : List Action) : ∀ s, Inv s → Inv (run s as) := by
  induction as with
  | nil => intro s h; exact h
  | cons a as ih => intro s h; exact ih _ (inv_step s a h)

theorem inv_of_reachable {s : State} (h : Reachable s) : Inv s := by
  obtain ⟨user, userRef, examId, as, rfl⟩ := h
  exact inv_run as _ (inv_mount user userRef examId)

theorem dispatch_armed (s : State) (g : Nat) (e : BrowserEvent) (now : Int)
    (h : s.listeners = listeners g) :
    dispatch s e now = runEffects sendWebAlert now s (handle e) := by
  cases e <;>
    simp [dispatch, dispatchWith, h, listeners, Listener.listensTo, BrowserEvent.type,
      BrowserEvent.target, Handler.call, handle]

theorem armed_of_reachable {s : State} (hr : Reachable s) (hs : s.examStarted = true) :
    ∃ g, s.cleanup = some g ∧ s.listeners = listeners g := by
  have h := inv_of_reachable hr
  simpa [Inv, hs] using h

theorem disarmed_of_reachable {s : State} (hr : Reachable s) (hs : s.examStarted = false) :
    s.cleanup = none ∧ s.listeners = [] := by
  have h := inv_of_reachable hr
  simpa [Inv, hs] using h

theorem sendWebAlert_violations (s : State) (now : Int) (m : String) :
    (sendWebAlert s now m).violations = s.violations := by
  unfold sendWebAlert
  split
  · rfl
  · dsimp only
    split
    · rfl
    · split <;> rfl

theorem runEffects_violations (now : Int) (es : List Effect) :
    ∀ s, (runEffects sendWebAlert now s es).violations
      = s.violations + es.count Effect.setViolations := by
  induction es with
  | nil => intro s; simp [runEffects]
  | cons e es ih =>
    intro s
    cases e <;> simp [runEffects, ih, sendWebAlert_violations, List.count_cons]
    omega

theorem sendWebAlert_throttled (s : State) (now : Int) (m : String)
    (h : now - s.lastAlertTs < 1500) : sendWebAlert s now m = s := by
  simp [sendWebAlert, h]

theorem sendWebAlert_pass (s : State) (now : Int) (m : String) (u : User) (sid : String)
    (h : 1500 ≤ now - s.lastAlertTs) (hu : s.userRef = some u)
    (hs : s.sessionId = some sid) (hne : sid ≠ "") :
    sendWebAlert s now m
      = { s with lastAlertTs := now, posts := s.posts ++ [alertPayload u sid m] } := by
  have h1 : ¬ (now - s.lastAlertTs < 1500) := by omega
  simp [sendWebAlert, h1, hu, hs, truthy, hne]

/-- Exactly one violation is counted by `onKeyDown` for a qualifying key. -/
theorem onKeyDown_count (key : Option String) (ctrlKey metaKey : Bool)
    (hq : qualifying (.keydown key ctrlKey metaKey) = true) :
    (onKeyDown key ctrlKey metaKey).count Effect.setViolations = 1 := by
  by_cases hf : key = some "F12"
  · subst hf
    have hl : toLowerCase "F12" = "f12" := by decide
    simp [onKeyDown, hl, List.count_cons]
  · have hf2 : (key == some "F12") = false := by simpa using hf
    simp only [qualifying, hf2, Bool.or_false, Bool.and_eq_true, List.mem_cons,
      List.mem_singleton, decide_eq_true_eq, List.not_mem_nil, or_false] at hq
    obtain ⟨hc, hk⟩ := hq
    have hc2 : (ctrlKey || metaKey) = true := hc
    rcases hk with hk | hk | hk | hk | hk <;>
      simp [onKeyDown, hf2, hk, hc2, List.count_cons]

theorem handle_count (e : BrowserEvent) (hq : qualifying e = true) :
    (handle e).count Effect.setViolations = if e = .beforeunload then 0 else 1 := by
  cases e with
  | keydown key ctrlKey metaKey =>
    simpa [handle] using onKeyDown_count key ctrlKey metaKey hq
  | visibilitychange hidden =>
    simp only [qualifying] at hq
    simp [handle, onVisibility, hq, List.count_cons]
  | fullscreenchange fs =>
    simp only [qualifying, Bool.not_eq_true'] at hq
    simp [handle, onFullScreenChange, hq, List.count_cons]
  | _ => simp [handle, onCopy, onCut, onPaste, onContext, onBlur, onBeforeUnload, List.count_cons]

end Monitor

/-! ## Claims -/

namespace Monitor

theorem dispatchAll_violations (g : Nat) (es : List (BrowserEvent × Int)) :
    ∀ s : State, s.listeners = listeners g → (∀ p ∈ es, qualifying p.1 = true) →
      (dispatchAll s es).violations
        = s.violations + (es.filter (fun p => decide (p.1 ≠ BrowserEvent.beforeunload))).length := by
  induction es with
  | nil => intro s _ _; simp [dispatchAll]
  | cons p es ih =>
    intro s hl hq
    have hp : qualifying p.1 = true := hq p (List.mem_cons_self _ _)
    have hrest : ∀ q ∈ es, qualifying q.1 = true := fun q hq2 => hq q (List.mem_cons_of_mem _ hq2)
    have hl2 : (dispatch s p.1 p.2).listeners = listeners g := by
      rw [(dispatch_frame s p.1 p.2).listeners, hl]
    have hstep : (dispatch s p.1 p.2).violations
        = s.violations + if p.1 = BrowserEvent.beforeunload then 0 else 1 := by
      rw [dispatch_armed s g p.1 p.2 hl, runEffects_violations, handle_count p.1 hp]
    have := ih (dispatch s p.1 p.2) hl2 hrest
    simp only [dispatchAll, List.foldl_cons] at this ⊢
    rw [this, hstep]
    by_cases hb : p.1 = BrowserEvent.beforeunload <;> simp [List.filter_cons, hb]
    omega

end Monitor

/-- C1 (counterexample). In the started session of `alice`, a page-unload
attempt is a qualifying event of the table, yet dispatching it leaves the
violation counter at 0 instead of raising it to 1: `onBeforeUnload` never calls
`setViolations`. -/
theorem c1_unload_not_counted :
    Monitor.Reachable Monitor.started ∧ Monitor.started.examStarted = true ∧
    Monitor.qualifying BrowserEvent.beforeunload = true ∧
    Monitor.started.violations = 0 ∧
    (Monitor.dispatchAll Monitor.started [(BrowserEvent.beforeunload, 1704110405000)]).violations = 0 ∧
    (Monitor.dispatchAll Monitor.started [(BrowserEvent.beforeunload, 1704110405000)]).violations
      ≠ Monitor.started.violations + [(BrowserEvent.beforeunload, (1704110405000 : Int))].length := by
  refine ⟨⟨some ⟨"alice"⟩, some ⟨"alice"⟩, some "42",
    [Monitor.Action.handleStartExam "2024-01-01T12:00:00.000Z"], rfl⟩, ?_, ?_, ?_, ?_, ?_⟩ <;> decide

/-- C1 (amended). For every sequence of qualifying browser events dispatched
while the exam is started, the violation counter afterwards is its value before
plus the number of events of the sequence that are not page-unload attempts:
each qualifying event other than a page-unload attempt adds exactly one,
whatever its label and whatever the clock reads (throttled or not), and a
page-unload attempt adds nothing. In particular a sequence without page-unload
attempts adds its length. A page-unload attempt makes exactly two calls,
`sendWebAlert("PAGE_UNLOAD_ATTEMPT")` and the assignment of the confirmation
message to `returnValue`, so dispatching it has the effect of that one
`sendWebAlert` call on the state. -/
theorem c1_violations_count (s : State) (es : List (BrowserEvent × Int))
    (hr : Monitor.Reachable s) (hs : s.examStarted = true)
    (hq : ∀ p ∈ es, Monitor.qualifying p.1 = true) :
    (Monitor.dispatchAll s es).violations
        = s.violations
          + (es.filter (fun p => decide (p.1 ≠ BrowserEvent.beforeunload))).length ∧
    ((∀ p ∈ es, p.1 ≠ BrowserEvent.beforeunload) →
      (Monitor.dispatchAll s es).violations = s.violations + es.length) ∧
    onBeforeUnload
      = [Effect.sendWebAlert "PAGE_UNLOAD_ATTEMPT",
         Effect.returnValue "Leaving will submit/terminate the exam."] ∧
    (∀ now : Int,
      Monitor.dispatch s BrowserEvent.beforeunload now
        = runEffects Monitor.sendWebAlert now s onBeforeUnload ∧
      Monitor.dispatch s BrowserEvent.beforeunload now
        = Monitor.sendWebAlert s now "PAGE_UNLOAD_ATTEMPT" ∧
      (Monitor.dispatch s BrowserEvent.beforeunload now).violations = s.violations) := by
  obtain ⟨g, -, hl⟩ := Monitor.armed_of_reachable hr hs
  have h := Monitor.dispatchAll_violations g es s hl hq
  refine ⟨h, fun hno => ?_, rfl, fun now => ?_⟩
  · rw [h]
    congr 2
    rw [List.filter_eq_self]
    intro p hp
    simpa using hno p hp
  · have e1 : Monitor.dispatch s BrowserEvent.beforeunload now
        = runEffects Monitor.sendWebAlert now s onBeforeUnload :=
      Monitor.dispatch_armed s g _ now hl
    have e2 : runEffects Monitor.sendWebAlert now s onBeforeUnload
        = Monitor.sendWebAlert s now "PAGE_UNLOAD_ATTEMPT" := by
      simp [onBeforeUnload, runEffects]
    refine ⟨e1, e1.trans e2, ?_⟩
    rw [e1, e2, Monitor.sendWebAlert_violations]

/-- C1 (witness). Copy, ctrl+V, a page-unload attempt and F12 in a started
session. -/
theorem c1_violations_count_witness :
    (Monitor.dispatchAll Monitor.started
        [(BrowserEvent.copy, 1704110400000),
         (BrowserEvent.keydown (some "V") true false, 1704110400200),
         (BrowserEvent.beforeunload, 1704110400400),
         (BrowserEvent.keydown (some "F12") false false, 1704110402000)]).violations
      = Monitor.started.violations + 3 :=
  (c1_violations_count Monitor.started
      [(BrowserEvent.copy, 1704110400000),
       (BrowserEvent.keydown (some "V") true false, 1704110400200),
       (BrowserEvent.beforeunload, 1704110400400),
       (BrowserEvent.keydown (some "F12") false false, 1704110402000)]
      ⟨some ⟨"alice"⟩, some ⟨"alice"⟩, some "42",
        [Monitor.Action.handleStartExam "2024-01-01T12:00:00.000Z"], rfl⟩
      (by decide) (by decide)).1

/-- C2 (counterexample). In the started session of `alice` (last-dispatch
timestamp 0): (a) alerts at 1704110400000, +1000 ms and +1600 ms: the second
and third are consecutive and 600 ms apart, yet the second issues no POST and
the third does, because the interval is measured from the first; (b) the
scenario with the clock reading 0, 500 and 2000 counts 3 violations but issues
one POST only (CUT_ATTEMPT), because the first alert is itself throttled
against the initial timestamp 0. -/
theorem c2_pair_second_only :
    ((1704110401600 : Int) - 1704110401000 < 1500 ∧
      (Monitor.sendWebAlert
          (Monitor.sendWebAlert Monitor.started 1704110400000 "COPY_ATTEMPT")
          1704110401000 "PASTE_ATTEMPT").posts
        = (Monitor.sendWebAlert Monitor.started 1704110400000 "COPY_ATTEMPT").posts ∧
      (Monitor.sendWebAlert
          (Monitor.sendWebAlert
            (Monitor.sendWebAlert Monitor.started 1704110400000 "COPY_ATTEMPT")
            1704110401000 "PASTE_ATTEMPT")
          1704110401600 "CUT_ATTEMPT").posts
        = (Monitor.sendWebAlert Monitor.started 1704110400000 "COPY_ATTEMPT").posts
            ++ [alertPayload ⟨"alice"⟩ "exam_42_alice_20240101T120000000Z" "CUT_ATTEMPT"]) ∧
    ((Monitor.dispatchAll Monitor.started
          [(BrowserEvent.copy, 0), (BrowserEvent.paste, 500), (BrowserEvent.cut, 2000)]).violations = 3 ∧
      (Monitor.dispatchAll Monitor.started
          [(BrowserEvent.copy, 0), (BrowserEvent.paste, 500), (BrowserEvent.cut, 2000)]).posts
        = Monitor.started.posts
            ++ [alertPayload ⟨"alice"⟩ "exam_42_alice_20240101T120000000Z" "CUT_ATTEMPT"]) := by
  decide

/-- C2 (amended). With user and session present and a throttle interval of
1500 ms, let a first alert pass the throttle (it comes at least 1500 ms after
the last-dispatch timestamp, which starts at 0): it issues one POST; a second
alert less than 1500 ms after it issues none, and a second alert 1500 ms or
more after it issues one as well. In particular, in a started session whose
clock reads `T` with `T - lastAlertTs ≥ 1500`, COPY_ATTEMPT at `T`,
PASTE_ATTEMPT at `T + 500` and CUT_ATTEMPT at `T + 2000` raise the counter by 3
and issue exactly the two POSTs of COPY_ATTEMPT and CUT_ATTEMPT. -/
theorem c2_throttle_pair (s : State) (u : User) (sid : String) (t1 : Int)
    (hu : s.userRef = some u) (hs : s.sessionId = some sid) (hne : sid ≠ "")
    (h1 : 1500 ≤ t1 - s.lastAlertTs) :
    (∀ m1 m2 : String, ∀ t2 : Int,
      (Monitor.sendWebAlert s t1 m1).posts = s.posts ++ [alertPayload u sid m1] ∧
      (t2 - t1 < 1500 →
        (Monitor.sendWebAlert (Monitor.sendWebAlert s t1 m1) t2 m2).posts
          = s.posts ++ [alertPayload u sid m1]) ∧
      (1500 ≤ t2 - t1 →
        (Monitor.sendWebAlert (Monitor.sendWebAlert s t1 m1) t2 m2).posts
          = s.posts ++ [alertPayload u sid m1, alertPayload u sid m2])) ∧
    (Monitor.Reachable s → s.examStarted = true →
      (Monitor.dispatchAll s
          [(BrowserEvent.copy, t1), (BrowserEvent.paste, t1 + 500),
           (BrowserEvent.cut, t1 + 2000)]).violations = s.violations + 3 ∧
      (Monitor.dispatchAll s
          [(BrowserEvent.copy, t1), (BrowserEvent.paste, t1 + 500),
           (BrowserEvent.cut, t1 + 2000)]).posts
        = s.posts ++ [alertPayload u sid "COPY_ATTEMPT", alertPayload u sid "CUT_ATTEMPT"]) := by
  have hn1 : ¬ (t1 - s.lastAlertTs < 1500) := by omega
  refine ⟨fun m1 m2 t2 => ⟨?_, ?_, ?_⟩, ?_⟩
  · rw [Monitor.sendWebAlert_pass s t1 m1 u sid h1 hu hs hne]
  · intro h2
    rw [Monitor.sendWebAlert_pass s t1 m1 u sid h1 hu hs hne,
      Monitor.sendWebAlert_throttled _ _ _ h2]
  · intro h2
    have hn2 : ¬ (t2 - t1 < 1500) := by omega
    rw [Monitor.sendWebAlert_pass s t1 m1 u sid h1 hu hs hne]
    simp [Monitor.sendWebAlert, hn2, hu, hs, truthy, hne]
  · intro hr hst
    obtain ⟨g, -, hl⟩ := Monitor.armed_of_reachable hr hst
    cases s with
    | mk user userRef examId examStarted sessionId violations lastAlertTs ls cleanup gen posts =>
      simp only at hu hs hl hn1
      subst hu hs hl
      simp [Monitor.dispatchAll, Monitor.dispatch, dispatchWith, Monitor.listeners,
        Listener.listensTo, BrowserEvent.type, BrowserEvent.target, Handler.call, onCopy,
        onPaste, onCut, runEffects, Monitor.sendWebAlert, hn1, truthy, hne]

/-- C2 (witness). The started session of `alice` with the first alert at
1704110400000 ms. -/
theorem c2_throttle_pair_witness :
    (Monitor.dispatchAll Monitor.started
        [(BrowserEvent.copy, 1704110400000), (BrowserEvent.paste, 1704110400000 + 500),
         (BrowserEvent.cut, 1704110400000 + 2000)]).violations = Monitor.started.violations + 3 ∧
    (Monitor.dispatchAll Monitor.started
        [(BrowserEvent.copy, 1704110400000), (BrowserEvent.paste, 1704110400000 + 500),
         (BrowserEvent.cut, 1704110400000 + 2000)]).posts
      = Monitor.started.posts
          ++ [alertPayload ⟨"alice"⟩ "exam_42_alice_20240101T120000000Z" "COPY_ATTEMPT",
              alertPayload ⟨"alice"⟩ "exam_42_alice_20240101T120000000Z" "CUT_ATTEMPT"] :=
  (c2_throttle_pair Monitor.started ⟨"alice"⟩ "exam_42_alice_20240101T120000000Z" 1704110400000
      (by decide) (by decide) (by decide) (by decide)).2
    ⟨some ⟨"alice"⟩, some ⟨"alice"⟩, some "42",
      [Monitor.Action.handleStartExam "2024-01-01T12:00:00.000Z"], rfl⟩
    (by decide)

theorem mem_foldl_addEventListener (L : List Listener) (x : Listener) :
    ∀ ls, x ∈ L.foldl addEventListener ls ↔ x ∈ ls ∨ x ∈ L := by
  induction L with
  | nil => intro ls; simp
  | cons l L ih =>
    intro ls
    rw [List.foldl_cons, ih]
    unfold addEventListener
    by_cases h : l ∈ ls
    · simp only [h, if_true, List.mem_cons]
      constructor
      · rintro (h1 | h1)
        · exact Or.inl h1
        · exact Or.inr (Or.inr h1)
      · rintro (h1 | h1 | h1)
        · exact Or.inl h1
        · exact Or.inl (h1 ▸ h)
        · exact Or.inr h1
    · simp only [h, if_false, List.mem_append, List.mem_singleton, List.mem_cons]
      tauto

theorem Monitor.unmount_listeners {s : State} (hr : Monitor.Reachable s) :
    (Monitor.unmount s).listeners = [] := by
  cases hb : s.examStarted
  · obtain ⟨hc, hl⟩ := Monitor.disarmed_of_reachable hr hb
    simp [Monitor.unmount, Monitor.runCleanup, hc, hl]
  · obtain ⟨g, hc, hl⟩ := Monitor.armed_of_reachable hr hb
    simp [Monitor.unmount, Monitor.runCleanup, hc, hl, Monitor.cleanup_listeners]

theorem Live.unmount_listeners_live {s : State} (hr : Live.Reachable s) :
    (Live.unmount s).listeners = [] := by
  obtain ⟨g, hc, hl⟩ := Live.live_inv_of_reachable hr
  cases hb : s.examStarted <;>
    simp [Live.unmount, Live.runCleanup, hc, hl, hb, Live.cleanup, removeEventListener]

/-- C3. No violation is recorded or dispatched while disarmed. In every
reachable state in which `examStarted` is false, and in every state obtained
by running the pending cleanup (unmount), dispatching any browser event at any
time leaves the whole component state unchanged: in particular the violation
counter keeps its value and no POST to `/log_data` is added. This holds for
the second version (nine listeners) and for the exported version (one
listener). -/
theorem c3_disarmed_silent (s : State) (e : BrowserEvent) (now : Int) :
    (Monitor.Reachable s → s.examStarted = false →
      Monitor.dispatch s e now = s ∧
      (Monitor.dispatch s e now).violations = s.violations ∧
      (Monitor.dispatch s e now).posts = s.posts) ∧
    (Monitor.Reachable s →
      Monitor.dispatch (Monitor.unmount s) e now = Monitor.unmount s ∧
      (Monitor.dispatch (Monitor.unmount s) e now).violations = s.violations ∧
      (Monitor.dispatch (Monitor.unmount s) e now).posts = s.posts) ∧
    (Live.Reachable s → s.examStarted = false →
      Live.dispatch s e now = s ∧ (Live.dispatch s e now).posts = s.posts) ∧
    (Live.Reachable s →
      Live.dispatch (Live.unmount s) e now = Live.unmount s ∧
      (Live.dispatch (Live.unmount s) e now).posts = s.posts) := by
  refine ⟨fun hr hs => ?_, fun hr => ?_, fun hr hs => ?_, fun hr => ?_⟩
  · have h := dispatchWith_nil Monitor.sendWebAlert s e now
      (Monitor.disarmed_of_reachable hr hs).2
    exact ⟨h, by rw [Monitor.dispatch, h], by rw [Monitor.dispatch, h]⟩
  · have h := dispatchWith_nil Monitor.sendWebAlert (Monitor.unmount s) e now
      (Monitor.unmount_listeners hr)
    refine ⟨h, ?_, ?_⟩ <;> rw [Monitor.dispatch, h] <;>
      simp only [Monitor.unmount, Monitor.runCleanup] <;> split <;> rfl
  · obtain ⟨g, -, hl⟩ := Live.live_inv_of_reachable hr
    have h := dispatchWith_nil Live.sendWebAlert s e now (by simpa [hs] using hl)
    exact ⟨h, by rw [Live.dispatch, h]⟩
  · have h := dispatchWith_nil Live.sendWebAlert (Live.unmount s) e now
      (Live.unmount_listeners_live hr)
    refine ⟨h, ?_⟩
    rw [Live.dispatch, h]
    simp only [Live.unmount, Live.runCleanup]
    split <;> rfl

/-- C3 (witness). A copy event before the exam of `alice` is started, in the
second version. -/
theorem c3_disarmed_silent_witness :
    Monitor.dispatch (Monitor.mount (some ⟨"alice"⟩) (some ⟨"alice"⟩) (some "42"))
        BrowserEvent.copy 1704110400000
      = Monitor.mount (some ⟨"alice"⟩) (some ⟨"alice"⟩) (some "42") :=
  ((c3_disarmed_silent (Monitor.mount (some ⟨"alice"⟩) (some ⟨"alice"⟩) (some "42"))
      BrowserEvent.copy 1704110400000).1
    ⟨some ⟨"alice"⟩, some ⟨"alice"⟩, some "42", [], rfl⟩ (by decide)).1

/-- C4. In every state reachable from mounting by updates of `examStarted`,
`handleStartExam` and browser events, the set of attached violation listeners
is non-empty if and only if `examStarted` is true, and when it is true the
registry is exactly the fixed set of the current effect run (nine listeners in
the second version, one in the exported version). The effect attaches every
listener of the fixed set when `examStarted` is true and leaves the registry as
it is when `examStarted` is false, and the cleanup of a run removes every
listener that run attached. -/
theorem c4_listeners_iff_started (s : State) :
    (Monitor.Reachable s →
      (s.listeners ≠ [] ↔ s.examStarted = true) ∧
      (s.examStarted = true → ∃ g, s.listeners = Monitor.listeners g)) ∧
    (Live.Reachable s →
      (s.listeners ≠ [] ↔ s.examStarted = true) ∧
      (s.examStarted = true → ∃ g, s.listeners = [Live.listener g])) ∧
    (s.examStarted = true →
      (∀ l ∈ Monitor.listeners s.gen, l ∈ (Monitor.effect s).listeners) ∧
      (Monitor.listeners s.gen).length = 9 ∧
      Live.listener s.gen ∈ (Live.effect s).listeners) ∧
    (s.examStarted = false →
      (Monitor.effect s).listeners = s.listeners ∧ (Live.effect s).listeners = s.listeners) ∧
    (∀ g : Nat, ∀ ls : List Listener,
      (∀ l ∈ Monitor.listeners g, l ∉ Monitor.cleanup g ls) ∧
      Live.listener g ∉ Live.cleanup g ls) := by
  refine ⟨fun hr => ?_, fun hr => ?_, fun hs => ?_, fun hs => ?_, fun g ls => ?_⟩
  · cases hb : s.examStarted
    · have h := (Monitor.disarmed_of_reachable hr hb).2
      simp [h]
    · obtain ⟨g, -, hl⟩ := Monitor.armed_of_reachable hr hb
      refine ⟨?_, fun _ => ⟨g, hl⟩⟩
      simp [hl, Monitor.listeners]
  · obtain ⟨g, -, hl⟩ := Live.live_inv_of_reachable hr
    cases hb : s.examStarted
    · simp [hl, hb]
    · refine ⟨?_, fun _ => ⟨g, by simpa [hb] using hl⟩⟩
      simp [hl, hb]
  · refine ⟨fun l hl => ?_, rfl, ?_⟩
    · simp only [Monitor.effect, hs, Bool.not_true, Bool.false_eq_true, if_false]
      exact (mem_foldl_addEventListener _ l _).2 (Or.inr hl)
    · simp only [Live.effect, hs, if_true, addEventListener]
      split
      · assumption
      · simp
  · exact ⟨by simp [Monitor.effect, hs], by simp [Live.effect, hs]⟩
  · constructor
    · intro l hl
      rw [Monitor.cleanup_eq_filter]
      simp [List.mem_filter, hl]
    · simp [Live.cleanup, removeEventListener, List.mem_filter]

/-- C4 (witness). The started session of `alice` holds the nine listeners of an
effect run, and the exam is started. -/
theorem c4_listeners_iff_started_witness :
    (Monitor.started.listeners ≠ [] ↔ Monitor.started.examStarted = true) ∧
    (∃ g, Monitor.started.listeners = Monitor.listeners g) :=
  ⟨((c4_listeners_iff_started Monitor.started).1
      ⟨some ⟨"alice"⟩, some ⟨"alice"⟩, some "42",
        [Monitor.Action.handleStartExam "2024-01-01T12:00:00.000Z"], rfl⟩).1,
   ((c4_listeners_iff_started Monitor.started).1
      ⟨some ⟨"alice"⟩, some ⟨"alice"⟩, some "42",
        [Monitor.Action.handleStartExam "2024-01-01T12:00:00.000Z"], rfl⟩).2 (by decide)⟩

/-- C5. Disarm is idempotent and safe when never armed. For every registry
`ls` and every effect run `g`, the cleanup of run `g` leaves none of the
listeners of that run in the registry, running it a second time changes
nothing, and running it on a registry that holds none of them (never armed)
changes nothing; the model is a total function, so no error is raised. In
every reachable state, running the pending cleanup leaves no listener of the
component attached at all, and running it again gives the same state. This
holds for both versions of the component. -/
theorem c5_cleanup_idempotent (g : Nat) (ls : List Listener) (s : State) :
    ((∀ l ∈ Monitor.listeners g, l ∉ Monitor.cleanup g ls) ∧
      Monitor.cleanup g (Monitor.cleanup g ls) = Monitor.cleanup g ls ∧
      ((∀ l ∈ Monitor.listeners g, l ∉ ls) → Monitor.cleanup g ls = ls) ∧
      Monitor.cleanup g [] = []) ∧
    (Live.listener g ∉ Live.cleanup g ls ∧
      Live.cleanup g (Live.cleanup g ls) = Live.cleanup g ls ∧
      (Live.listener g ∉ ls → Live.cleanup g ls = ls) ∧
      Live.cleanup g [] = []) ∧
    (Monitor.Reachable s →
      (Monitor.unmount s).listeners = [] ∧
      Monitor.unmount (Monitor.unmount s) = Monitor.unmount s) ∧
    (Live.Reachable s →
      (Live.unmount s).listeners = [] ∧
      Live.unmount (Live.unmount s) = Live.unmount s) := by
  refine ⟨⟨?_, ?_, ?_, ?_⟩, ⟨?_, ?_, ?_, ?_⟩, fun hr => ⟨Monitor.unmount_listeners hr, ?_⟩,
    fun hr => ⟨Live.unmount_listeners_live hr, ?_⟩⟩
  · intro l hl
    rw [Monitor.cleanup_eq_filter]
    simp [List.mem_filter, hl]
  · simp only [Monitor.cleanup_eq_filter, List.filter_filter, Bool.and_self]
  · intro h
    rw [Monitor.cleanup_eq_filter, List.filter_eq_self]
    intro a ha
    simp only [decide_eq_true_eq]
    exact fun hmem => h a hmem ha
  · rw [Monitor.cleanup_eq_filter]; rfl
  · simp [Live.cleanup, removeEventListener, List.mem_filter]
  · simp only [Live.cleanup, removeEventListener, List.filter_filter, Bool.and_self]
  · intro h
    simp only [Live.cleanup, removeEventListener]
    rw [List.filter_eq_self]
    intro a ha
    simp only [ne_eq, decide_not, Bool.not_eq_true', decide_eq_false_iff_not]
    exact fun heq => h (heq ▸ ha)
  · rfl
  · cases hc : s.cleanup <;> simp [Monitor.unmount, Monitor.runCleanup, hc]
  · cases hc : s.cleanup <;> simp [Live.unmount, Live.runCleanup, hc]

/-- C5 (witness). Unmounting the started session of `alice` leaves no listener,
and unmounting again changes nothing. -/
theorem c5_cleanup_idempotent_witness :
    (Monitor.unmount Monitor.started).listeners = [] ∧
    Monitor.unmount (Monitor.unmount Monitor.started) = Monitor.unmount Monitor.started :=
  (c5_cleanup_idempotent 1 [] Monitor.started).2.2.1
    ⟨some ⟨"alice"⟩, some ⟨"alice"⟩, some "42",
      [Monitor.Action.handleStartExam "2024-01-01T12:00:00.000Z"], rfl⟩

theorem Live.live_setExamStarted_sessionId (s : State) (b : Bool) :
    (Live.setExamStarted s b).sessionId = s.sessionId := by
  unfold Live.setExamStarted
  split
  · rfl
  · cases hc : s.cleanup <;> simp [Live.effect, Live.runCleanup, hc]

theorem Monitor.setExamStarted_sessionId (s : State) (b : Bool) :
    (Monitor.setExamStarted s b).sessionId = s.sessionId := by
  unfold Monitor.setExamStarted
  split
  · rfl
  · cases hc : s.cleanup <;> cases b <;> simp [Monitor.effect, Monitor.runCleanup, hc]

theorem Live.live_setExamStarted_examStarted (s : State) (b : Bool) :
    (Live.setExamStarted s b).examStarted = b := by
  unfold Live.setExamStarted
  split
  · assumption
  · cases hc : s.cleanup <;> simp [Live.effect, Live.runCleanup, hc]

theorem Monitor.setExamStarted_examStarted (s : State) (b : Bool) :
    (Monitor.setExamStarted s b).examStarted = b := by
  unfold Monitor.setExamStarted
  split
  · assumption
  · cases hc : s.cleanup <;> cases b <;> simp [Monitor.effect, Monitor.runCleanup, hc]

theorem newSessionId_some (s : State) (iso : String) (u : User) (x : String)
    (hu : s.user = some u) (hx : s.examId = some x) (hne : x ≠ "") :
    newSessionId s iso = some (sessionIdOf x u.username iso) := by
  simp [newSessionId, hu, hx, hne]

theorem newSessionId_none (s : State) (iso : String)
    (h : s.user = none ∨ s.examId = none ∨ s.examId = some "") :
    newSessionId s iso = none := by
  unfold newSessionId
  rcases h with h | h | h
  · simp [h]
  · cases hu : s.user <;> simp [h]
  · cases hu : s.user <;> simp [h]

/-- C6. With user `u` and a non-empty exam id `x` present, `handleStartExam`
(both versions) sets the session identifier to exactly
`"exam_" ++ x ++ "_" ++ u.username ++ "_"` followed by the ISO instant with
every `-`, `:` and `.` deleted, a function of those three inputs only, and sets
`examStarted`; exam `42`, `alice`, `2024-01-01T12:00:00.000Z` gives
`exam_42_alice_20240101T120000000Z`. When the user or the exam id is missing
(null, or the empty string for the id) it returns the state unchanged, so the
session identifier and `examStarted` keep their values. -/
theorem c6_session_id (s : State) (iso : String) :
    (∀ (u : User) (x : String), s.user = some u → s.examId = some x → x ≠ "" →
      (Live.handleStartExam s iso).sessionId
        = some ("exam_" ++ x ++ "_" ++ u.username ++ "_"
            ++ String.mk (iso.data.filter (fun c => c ≠ '-' ∧ c ≠ ':' ∧ c ≠ '.'))) ∧
      (Monitor.handleStartExam s iso).sessionId
        = some ("exam_" ++ x ++ "_" ++ u.username ++ "_"
            ++ String.mk (iso.data.filter (fun c => c ≠ '-' ∧ c ≠ ':' ∧ c ≠ '.'))) ∧
      (Live.handleStartExam s iso).examStarted = true ∧
      (Monitor.handleStartExam s iso).examStarted = true) ∧
    ((s.user = none ∨ s.examId = none ∨ s.examId = some "") →
      Live.handleStartExam s iso = s ∧ Monitor.handleStartExam s iso = s) ∧
    (Live.handleStartExam (Live.mount (some ⟨"alice"⟩) (some ⟨"alice"⟩) (some "42"))
        "2024-01-01T12:00:00.000Z").sessionId = some "exam_42_alice_20240101T120000000Z" := by
  refine ⟨fun u x hu hx hne => ?_, fun h => ?_, by decide⟩
  · have hn := newSessionId_some s iso u x hu hx hne
    have hstrip : stripPunct iso
        = String.mk (iso.data.filter (fun c => c ≠ '-' ∧ c ≠ ':' ∧ c ≠ '.')) := by
      unfold stripPunct
      congr 1
      apply List.filter_congr
      intro c _
      by_cases h1 : c = '-' <;> by_cases h2 : c = ':' <;> by_cases h3 : c = '.' <;>
        simp [isPunct, h1, h2, h3]
    have hid : sessionIdOf x u.username iso
        = "exam_" ++ x ++ "_" ++ u.username ++ "_"
            ++ String.mk (iso.data.filter (fun c => c ≠ '-' ∧ c ≠ ':' ∧ c ≠ '.')) := by
      simp only [sessionIdOf, hstrip]
    refine ⟨?_, ?_, ?_, ?_⟩
    · simp only [Live.handleStartExam, hn, Live.live_setExamStarted_sessionId, hid]
    · simp only [Monitor.handleStartExam, hn, hu, Monitor.setExamStarted_sessionId, hid]
    · simp only [Live.handleStartExam, hn, Live.live_setExamStarted_examStarted]
    · simp only [Monitor.handleStartExam, hn, hu, Monitor.setExamStarted_examStarted]
  · have hn := newSessionId_none s iso h
    constructor
    · simp only [Live.handleStartExam, hn]
    · simp only [Monitor.handleStartExam, hn]

/-- C6 (witness). Starting exam `42` as `bob` in the second version. -/
theorem c6_session_id_witness :
    (Monitor.handleStartExam (Monitor.mount (some ⟨"bob"⟩) (some ⟨"bob"⟩) (some "42"))
        "2025-03-09T08:15:30.250Z").sessionId
      = some ("exam_" ++ "42" ++ "_" ++ "bob" ++ "_"
          ++ String.mk ("2025-03-09T08:15:30.250Z".data.filter
              (fun c => c ≠ '-' ∧ c ≠ ':' ∧ c ≠ '.'))) :=
  ((c6_session_id (Monitor.mount (some ⟨"bob"⟩) (some ⟨"bob"⟩) (some "42"))
      "2025-03-09T08:15:30.250Z").1 ⟨"bob"⟩ "42" rfl rfl (by decide)).2.1

theorem stripPunct_clean (iso : String) :
    ∀ c ∈ (stripPunct iso).data, c ≠ '-' ∧ c ≠ ':' ∧ c ≠ '.' := by
  intro c hc
  simp only [stripPunct, List.mem_filter, isPunct, Bool.not_eq_true', Bool.or_eq_false_iff,
    beq_eq_false_iff_ne, ne_eq] at hc
  exact ⟨hc.2.1.1, hc.2.1.2, hc.2.2⟩

theorem sessionIdOf_data (x u iso : String) :
    (sessionIdOf x u iso).data
      = ['e', 'x', 'a', 'm', '_'] ++ x.data ++ ['_'] ++ u.data ++ ['_'] ++ (stripPunct iso).data := by
  simp [sessionIdOf, String.data_append]

/-- C7 (counterexample). For user `mary-ann`, exam `42` and the instant
`2024-01-01T12:00:00.000Z`, `handleStartExam` produces
`exam_42_mary-ann_20240101T120000000Z`, which contains `-`: only the timestamp
is stripped, the username and the exam id are inserted as they are. -/
theorem c7_username_hyphen_kept :
    (Live.handleStartExam (Live.mount (some ⟨"mary-ann"⟩) (some ⟨"mary-ann"⟩) (some "42"))
        "2024-01-01T12:00:00.000Z").sessionId = some "exam_42_mary-ann_20240101T120000000Z" ∧
    (Monitor.handleStartExam (Monitor.mount (some ⟨"mary-ann"⟩) (some ⟨"mary-ann"⟩) (some "42"))
        "2024-01-01T12:00:00.000Z").sessionId = some "exam_42_mary-ann_20240101T120000000Z" ∧
    '-' ∈ "exam_42_mary-ann_20240101T120000000Z".data := by
  decide

/-- C7 (amended). For every exam id, username and timestamp, the session
identifier produced by `handleStartExam` is `exam_`, the exam id unchanged, `_`,
the username unchanged, `_` and the timestamp with every `-`, `:` and `.`
deleted. The timestamp part contains none of these characters, and every
character of the exam id and of the username occurs in the identifier, so the
identifier contains none of them exactly when the exam id and the username
contain none. -/
theorem c7_session_id_punct (x u iso : String) :
    (sessionIdOf x u iso).data
      = ['e', 'x', 'a', 'm', '_'] ++ x.data ++ ['_'] ++ u.data ++ ['_']
          ++ iso.data.filter (fun c => !(c == '-' || c == ':' || c == '.')) ∧
    (∀ c ∈ (stripPunct iso).data, c ≠ '-' ∧ c ≠ ':' ∧ c ≠ '.') ∧
    (∀ c ∈ x.data ++ u.data, c ∈ (sessionIdOf x u iso).data) ∧
    (∀ c ∈ (sessionIdOf x u iso).data, (c = '-' ∨ c = ':' ∨ c = '.') →
      c ∈ x.data ∨ c ∈ u.data) ∧
    ((∀ c ∈ (sessionIdOf x u iso).data, c ≠ '-' ∧ c ≠ ':' ∧ c ≠ '.') ↔
      (∀ c ∈ x.data ++ u.data, c ≠ '-' ∧ c ≠ ':' ∧ c ≠ '.')) ∧
    (∀ (s : State) (usr : User), s.user = some usr → s.examId = some x → x ≠ "" →
      (Live.handleStartExam s iso).sessionId = some (sessionIdOf x usr.username iso) ∧
      (Monitor.handleStartExam s iso).sessionId = some (sessionIdOf x usr.username iso)) := by
  have hdata := sessionIdOf_data x u iso
  have hsub : ∀ c ∈ x.data ++ u.data, c ∈ (sessionIdOf x u iso).data := by
    intro c hc
    rw [hdata]
    rcases List.mem_append.1 hc with h | h
    · simp [h]
    · simp [h]
  have key : ∀ c ∈ (sessionIdOf x u iso).data, (c = '-' ∨ c = ':' ∨ c = '.') →
      c ∈ x.data ∨ c ∈ u.data := by
    intro c hc hp
    rw [sessionIdOf_data] at hc
    simp only [List.mem_append, List.mem_cons, List.mem_singleton, List.not_mem_nil,
      or_false] at hc
    rcases hc with ((((h | h) | h) | h) | h) | h
    · rcases h with h | h | h | h | h <;> subst h <;> exact absurd hp (by decide)
    · exact Or.inl h
    · subst h; exact absurd hp (by decide)
    · exact Or.inr h
    · subst h; exact absurd hp (by decide)
    · have := stripPunct_clean iso c h
      rcases hp with hp | hp | hp
      · exact absurd hp this.1
      · exact absurd hp this.2.1
      · exact absurd hp this.2.2
  refine ⟨?_, stripPunct_clean iso, hsub, key, ⟨fun h c hc => h c (hsub c hc),
    fun hclean c hc => ?_⟩, fun s usr hu hx hne => ?_⟩
  · rw [hdata]
    rfl
  · by_contra hcon
    have hp : c = '-' ∨ c = ':' ∨ c = '.' := by
      by_cases h1 : c = '-'
      · exact Or.inl h1
      · by_cases h2 : c = ':'
        · exact Or.inr (Or.inl h2)
        · by_cases h3 : c = '.'
          · exact Or.inr (Or.inr h3)
          · exact absurd ⟨h1, h2, h3⟩ hcon
    have hmem : c ∈ x.data ++ u.data := List.mem_append.2 (key c hc hp)
    have := hclean c hmem
    rcases hp with hp | hp | hp
    · exact this.1 hp
    · exact this.2.1 hp
    · exact this.2.2 hp
  · have hn := newSessionId_some s iso usr x hu hx hne
    constructor
    · simp only [Live.handleStartExam, hn, Live.live_setExamStarted_sessionId]
    · simp only [Monitor.handleStartExam, hn, hu, Monitor.setExamStarted_sessionId]

/-- C7 (witness). Exam `42` and user `alice` contain no punctuation, so the
identifier contains none. -/
theorem c7_session_id_punct_witness :
    ∀ c ∈ (sessionIdOf "42" "alice" "2024-01-01T12:00:00.000Z").data,
      c ≠ '-' ∧ c ≠ ':' ∧ c ≠ '.' :=
  (c7_session_id_punct "42" "alice" "2024-01-01T12:00:00.000Z").2.2.2.2.1.2 (by decide)

theorem onKeyDown_shortcut (key : Option String) (ctrlKey metaKey : Bool)
    (hc : (ctrlKey || metaKey) = true)
    (hk : toLowerCase (key.getD "") ∈ ["v", "c", "x", "s", "p"]) :
    onKeyDown key ctrlKey metaKey
      = [Effect.preventDefault, Effect.setViolations,
          Effect.sendWebAlert ("SHORTCUT_" ++ toUpperCase (toLowerCase (key.getD "")))] := by
  have hf : (key == some "F12") = false := by
    by_cases hf : key = some "F12"
    · subst hf
      exact absurd hk (by decide)
    · simpa using hf
  simp only [List.mem_cons, List.mem_singleton, List.not_mem_nil, or_false] at hk
  rcases hk with hk | hk | hk | hk | hk <;> simp [onKeyDown, hf, hk, hc]

theorem onKeyDown_f12 (ctrlKey metaKey : Bool) :
    onKeyDown (some "F12") ctrlKey metaKey
      = [Effect.preventDefault, Effect.setViolations,
          Effect.sendWebAlert "DEVTOOLS_OPEN_ATTEMPT"] := by
  have hl : toLowerCase "F12" = "f12" := by decide
  simp [onKeyDown, hl]

theorem onKeyDown_other (key : Option String) (ctrlKey metaKey : Bool)
    (hn : ¬ ((ctrlKey || metaKey) = true ∧
      toLowerCase (key.getD "") ∈ ["v", "c", "x", "s", "p"]))
    (hf : key ≠ some "F12") :
    onKeyDown key ctrlKey metaKey = [] := by
  have hf2 : (key == some "F12") = false := by simpa using hf
  simp only [List.mem_cons, List.mem_singleton, List.not_mem_nil, or_false] at hn
  simp only [onKeyDown, hf2, Bool.false_eq_true, if_false, List.append_nil]
  rw [if_neg]
  intro hcon
  apply hn
  simpa [Bool.and_eq_true, Bool.or_eq_true, or_assoc] using hcon

/-- C8. Every keydown maps to exactly one violation label or to none. With
`k` the lower-cased key: when ctrl or meta is held and `k` is one of `v`, `c`,
`x`, `s`, `p`, `onKeyDown` prevents the default, counts one violation and sends
the one alert `SHORTCUT_` followed by the upper-cased key (one of `SHORTCUT_V`,
`SHORTCUT_C`, `SHORTCUT_X`, `SHORTCUT_S`, `SHORTCUT_P`); when the key is `F12`
it does the same with the one alert `DEVTOOLS_OPEN_ATTEMPT`; for every other
keydown it does nothing. No keydown counts two violations or sends two alerts.
When the listeners are armed, dispatching a keydown runs exactly these calls of
`onKeyDown`. -/
theorem c8_keydown_classification (key : Option String) (ctrlKey metaKey : Bool) :
    (((ctrlKey || metaKey) = true ∧
        toLowerCase (key.getD "") ∈ ["v", "c", "x", "s", "p"]) →
      onKeyDown key ctrlKey metaKey
        = [Effect.preventDefault, Effect.setViolations,
            Effect.sendWebAlert ("SHORTCUT_" ++ toUpperCase (toLowerCase (key.getD "")))] ∧
      ("SHORTCUT_" ++ toUpperCase (toLowerCase (key.getD "")))
        ∈ ["SHORTCUT_V", "SHORTCUT_C", "SHORTCUT_X", "SHORTCUT_S", "SHORTCUT_P"]) ∧
    (key = some "F12" →
      onKeyDown key ctrlKey metaKey
        = [Effect.preventDefault, Effect.setViolations,
            Effect.sendWebAlert "DEVTOOLS_OPEN_ATTEMPT"]) ∧
    (¬ ((ctrlKey || metaKey) = true ∧
        toLowerCase (key.getD "") ∈ ["v", "c", "x", "s", "p"]) →
      key ≠ some "F12" → onKeyDown key ctrlKey metaKey = []) ∧
    (onKeyDown key ctrlKey metaKey).count Effect.setViolations ≤ 1 ∧
    (onKeyDown key ctrlKey metaKey).length ≤ 3 ∧
    (∀ (s : State) (now : Int), Monitor.Reachable s → s.examStarted = true →
      Monitor.dispatch s (BrowserEvent.keydown key ctrlKey metaKey) now
        = runEffects Monitor.sendWebAlert now s (onKeyDown key ctrlKey metaKey)) := by
  have h1 : ((ctrlKey || metaKey) = true ∧
        toLowerCase (key.getD "") ∈ ["v", "c", "x", "s", "p"]) →
      onKeyDown key ctrlKey metaKey
        = [Effect.preventDefault, Effect.setViolations,
            Effect.sendWebAlert ("SHORTCUT_" ++ toUpperCase (toLowerCase (key.getD "")))] :=
    fun h => onKeyDown_shortcut key ctrlKey metaKey h.1 h.2
  have h2 : key = some "F12" →
      onKeyDown key ctrlKey metaKey
        = [Effect.preventDefault, Effect.setViolations,
            Effect.sendWebAlert "DEVTOOLS_OPEN_ATTEMPT"] :=
    fun h => h ▸ onKeyDown_f12 ctrlKey metaKey
  have h3 := onKeyDown_other key ctrlKey metaKey
  refine ⟨fun h => ⟨h1 h, ?_⟩, h2, h3, ?_, ?_, ?_⟩
  · have hk := h.2
    simp only [List.mem_cons, List.mem_singleton, List.not_mem_nil, or_false] at hk
    rcases hk with hk | hk | hk | hk | hk <;> rw [hk] <;> decide
  · by_cases ha : (ctrlKey || metaKey) = true ∧
        toLowerCase (key.getD "") ∈ ["v", "c", "x", "s", "p"]
    · rw [h1 ha]; simp [List.count_cons]
    · by_cases hb : key = some "F12"
      · rw [h2 hb]; simp [List.count_cons]
      · rw [h3 ha hb]; simp
  · by_cases ha : (ctrlKey || metaKey) = true ∧
        toLowerCase (key.getD "") ∈ ["v", "c", "x", "s", "p"]
    · rw [h1 ha]; simp
    · by_cases hb : key = some "F12"
      · rw [h2 hb]; simp
      · rw [h3 ha hb]; simp
  · intro s now hr hs
    obtain ⟨g, -, hl⟩ := Monitor.armed_of_reachable hr hs
    rw [Monitor.dispatch_armed s g _ now hl]
    rfl

/-- C8 (witness). Cmd+P in the started session of `alice`: one violation
labelled `SHORTCUT_P`. -/
theorem c8_keydown_classification_witness :
    onKeyDown (some "P") false true
      = [Effect.preventDefault, Effect.setViolations,
          Effect.sendWebAlert ("SHORTCUT_" ++ toUpperCase (toLowerCase ((some "P").getD "")))] ∧
    ("SHORTCUT_" ++ toUpperCase (toLowerCase ((some "P").getD "")))
      ∈ ["SHORTCUT_V", "SHORTCUT_C", "SHORTCUT_X", "SHORTCUT_S", "SHORTCUT_P"] :=
  (c8_keydown_classification (some "P") false true).1 (by decide)

theorem Live.dispatch_armed_live (s : State) (g : Nat) (hidden : Bool) (now : Int)
    (h : s.listeners = [Live.listener g]) :
    Live.dispatch s (BrowserEvent.visibilitychange hidden) now
      = runEffects Live.sendWebAlert now s (handleVisibilityChange hidden) := by
  simp [Live.dispatch, dispatchWith, h, Live.listener, Listener.listensTo, BrowserEvent.type,
    BrowserEvent.target, Handler.call]

/-- C9 (counterexample). In the exported component, started for `alice`, a
`visibilitychange` with the document hidden issues a POST whose alert label is
`WEB: Switched tabs`, not `TAB_SWITCH_OR_MINIMIZE`. -/
theorem c9_live_label_differs :
    Live.Reachable Live.started ∧ Live.started.examStarted = true ∧
    (Live.dispatch Live.started (BrowserEvent.visibilitychange true) 1704110405000).posts
      = [alertPayload ⟨"alice"⟩ "exam_42_alice_20240101T120000000Z" "WEB: Switched tabs"] ∧
    (alertPayload ⟨"alice"⟩ "exam_42_alice_20240101T120000000Z" "WEB: Switched tabs").alerts
      ≠ ["TAB_SWITCH_OR_MINIMIZE"] := by
  refine ⟨⟨some ⟨"alice"⟩, some ⟨"alice"⟩, some "42",
    [Live.Action.handleStartExam "2024-01-01T12:00:00.000Z"], rfl⟩, ?_, ?_, ?_⟩ <;> decide

/-- C9 (amended). While the exam is started, a `visibilitychange` with the
document hidden makes `onVisibility` (second version) count one violation and
call `sendWebAlert` with the label `TAB_SWITCH_OR_MINIMIZE`, so the POST it
issues, when user and session are present and the throttle passes, carries
exactly that label; in the exported component `handleVisibilityChange` calls
`sendWebAlert` with the label `WEB: Switched tabs` instead. When the document
is not hidden, neither handler submits anything: the state is unchanged. -/
theorem c9_visibility_labels (s : State) (now : Int) :
    (Monitor.Reachable s → s.examStarted = true →
      Monitor.dispatch s (BrowserEvent.visibilitychange true) now
        = Monitor.sendWebAlert { s with violations := s.violations + 1 } now
            "TAB_SWITCH_OR_MINIMIZE" ∧
      Monitor.dispatch s (BrowserEvent.visibilitychange false) now = s ∧
      (∀ (u : User) (sid : String), s.userRef = some u → s.sessionId = some sid → sid ≠ "" →
        1500 ≤ now - s.lastAlertTs →
        (Monitor.dispatch s (BrowserEvent.visibilitychange true) now).posts
          = s.posts ++ [{ source := "web", student_id := u.username, session_id := sid,
                          alerts := ["TAB_SWITCH_OR_MINIMIZE"] }])) ∧
    (Live.Reachable s → s.examStarted = true →
      Live.dispatch s (BrowserEvent.visibilitychange true) now
        = Live.sendWebAlert s now "WEB: Switched tabs" ∧
      Live.dispatch s (BrowserEvent.visibilitychange false) now = s ∧
      (∀ (u : User) (sid : String), s.userRef = some u → s.sessionId = some sid → sid ≠ "" →
        (Live.dispatch s (BrowserEvent.visibilitychange true) now).posts
          = s.posts ++ [{ source := "web", student_id := u.username, session_id := sid,
                          alerts := ["WEB: Switched tabs"] }])) := by
  constructor
  · intro hr hs
    obtain ⟨g, -, hl⟩ := Monitor.armed_of_reachable hr hs
    have e1 : Monitor.dispatch s (BrowserEvent.visibilitychange true) now
        = Monitor.sendWebAlert { s with violations := s.violations + 1 } now
            "TAB_SWITCH_OR_MINIMIZE" := by
      rw [Monitor.dispatch_armed s g _ now hl]
      simp [Monitor.handle, onVisibility, runEffects]
    refine ⟨e1, ?_, ?_⟩
    · rw [Monitor.dispatch_armed s g _ now hl]
      simp [Monitor.handle, onVisibility, runEffects]
    · intro u sid hu hsid hne hpass
      have hn : ¬ (now - s.lastAlertTs < 1500) := by omega
      rw [e1]
      simp [Monitor.sendWebAlert, hn, hu, hsid, truthy, hne, alertPayload]
  · intro hr hs
    obtain ⟨g, -, hl⟩ := Live.live_inv_of_reachable hr
    have hl2 : s.listeners = [Live.listener g] := by simpa [hs] using hl
    have e1 : Live.dispatch s (BrowserEvent.visibilitychange true) now
        = Live.sendWebAlert s now "WEB: Switched tabs" := by
      rw [Live.dispatch_armed_live s g _ now hl2]
      simp [handleVisibilityChange, runEffects]
    refine ⟨e1, ?_, ?_⟩
    · rw [Live.dispatch_armed_live s g _ now hl2]
      simp [handleVisibilityChange, runEffects]
    · intro u sid hu hsid hne
      rw [e1]
      simp [Live.sendWebAlert, hu, hsid, truthy, hne, alertPayload]

/-- C9 (witness). The started session of `alice` in the second version, with the
document hidden at 1704110405000 ms. -/
theorem c9_visibility_labels_witness :
    (Monitor.dispatch Monitor.started (BrowserEvent.visibilitychange true) 1704110405000).posts
      = Monitor.started.posts
          ++ [{ source := "web", student_id := "alice",
                session_id := "exam_42_alice_20240101T120000000Z",
                alerts := ["TAB_SWITCH_OR_MINIMIZE"] }] :=
  ((c9_visibility_labels Monitor.started 1704110405000).1
      ⟨some ⟨"alice"⟩, some ⟨"alice"⟩, some "42",
        [Monitor.Action.handleStartExam "2024-01-01T12:00:00.000Z"], rfl⟩
      (by decide)).2.2 ⟨"alice"⟩ "exam_42_alice_20240101T120000000Z"
    (by decide) (by decide) (by decide) (by decide)

/-- C10. For every label, when `userRef.current` and a non-empty
`sessionIdRef.current` are present, `sendWebAlert` issues exactly one POST to
`/log_data`, with body `source = "web"`, `student_id` the stored username,
`session_id` the current session identifier and `alerts` the one-element list
of the label: always in the exported version, and in the second version when
the alert is not throttled. When the user or the session identifier is missing
(or, in the second version, the alert is throttled) it issues no request. -/
theorem c10_alert_payload (s : State) (now : Int) (label : String) :
    (∀ (u : User) (sid : String), s.userRef = some u → s.sessionId = some sid → sid ≠ "" →
      (Live.sendWebAlert s now label).posts
        = s.posts ++ [{ source := "web", student_id := u.username, session_id := sid,
                        alerts := [label] }] ∧
      (1500 ≤ now - s.lastAlertTs →
        (Monitor.sendWebAlert s now label).posts
          = s.posts ++ [{ source := "web", student_id := u.username, session_id := sid,
                          alerts := [label] }])) ∧
    ((s.userRef = none ∨ truthy s.sessionId = false) →
      (Live.sendWebAlert s now label).posts = s.posts ∧
      (Monitor.sendWebAlert s now label).posts = s.posts) ∧
    (now - s.lastAlertTs < 1500 → (Monitor.sendWebAlert s now label).posts = s.posts) := by
  refine ⟨fun u sid hu hsid hne => ⟨?_, fun hpass => ?_⟩, fun h => ⟨?_, ?_⟩, fun h => ?_⟩
  · simp [Live.sendWebAlert, hu, hsid, truthy, hne, alertPayload]
  · have hn : ¬ (now - s.lastAlertTs < 1500) := by omega
    simp [Monitor.sendWebAlert, hn, hu, hsid, truthy, hne, alertPayload]
  · rcases h with h | h
    · simp [Live.sendWebAlert, h]
    · cases hu : s.userRef <;> simp [Live.sendWebAlert, h, hu]
  · by_cases ht : now - s.lastAlertTs < 1500
    · simp [Monitor.sendWebAlert, ht]
    · rcases h with h | h
      · simp [Monitor.sendWebAlert, ht, h]
      · cases hu : s.userRef <;> simp [Monitor.sendWebAlert, ht, h, hu]
  · simp [Monitor.sendWebAlert, h]

/-- C10 (witness). A `WINDOW_BLUR` alert in the started session of `alice` at
1704110405000 ms, in both versions. -/
theorem c10_alert_payload_witness :
    (Live.sendWebAlert Monitor.started 1704110405000 "WINDOW_BLUR").posts
      = Monitor.started.posts
          ++ [{ source := "web", student_id := "alice",
                session_id := "exam_42_alice_20240101T120000000Z",
                alerts := ["WINDOW_BLUR"] }] ∧
    (Monitor.sendWebAlert Monitor.started 1704110405000 "WINDOW_BLUR").posts
      = Monitor.started.posts
          ++ [{ source := "web", student_id := "alice",
                session_id := "exam_42_alice_20240101T120000000Z",
                alerts := ["WINDOW_BLUR"] }] :=
  ⟨((c10_alert_payload Monitor.started 1704110405000 "WINDOW_BLUR").1
      ⟨"alice"⟩ "exam_42_alice_20240101T120000000Z" (by decide) (by decide) (by decide)).1,
   ((c10_alert_payload Monitor.started 1704110405000 "WINDOW_BLUR").1
      ⟨"alice"⟩ "exam_42_alice_20240101T120000000Z" (by decide) (by decide) (by decide)).2
      (by decide)⟩

theorem Monitor.sendWebAlert_lastAlertTs (s : State) (now : Int) (m : String) :
    (Monitor.sendWebAlert s now m).lastAlertTs
      = if 1500 ≤ now - s.lastAlertTs then now else s.lastAlertTs := by
  by_cases h : now - s.lastAlertTs < 1500
  · have h2 : ¬ (1500 ≤ now - s.lastAlertTs) := by omega
    simp [Monitor.sendWebAlert, h, h2]
  · have h2 : 1500 ≤ now - s.lastAlertTs := by omega
    simp only [Monitor.sendWebAlert, h, if_false, h2, if_true]
    split
    · rfl
    · split <;> rfl

theorem Monitor.sendWebAlert_posts_cases (s : State) (now : Int) (m : String) :
    (Monitor.sendWebAlert s now m).posts = s.posts ∨
      ∃ u sid, (Monitor.sendWebAlert s now m).posts = s.posts ++ [alertPayload u sid m] := by
  unfold Monitor.sendWebAlert
  split
  · exact Or.inl rfl
  · dsimp only
    split
    · exact Or.inl rfl
    · split
      · exact Or.inl rfl
      · exact Or.inr ⟨_, _, rfl⟩

theorem Monitor.sendWebAlert_posts_length (s : State) (now : Int) (m1 m2 : String) :
    (Monitor.sendWebAlert s now m1).posts.length = (Monitor.sendWebAlert s now m2).posts.length := by
  unfold Monitor.sendWebAlert
  split
  · rfl
  · dsimp only
    split
    · rfl
    · split
      · rfl
      · simp

theorem Monitor.sendAll_throttled (alerts : List (Int × String)) :
    ∀ s : State, (∀ a ∈ alerts, a.1 - s.lastAlertTs < 1500) → Monitor.sendAll s alerts = s := by
  induction alerts with
  | nil => intro s _; rfl
  | cons a rest ih =>
    intro s h
    have ha := h a (List.mem_cons_self _ _)
    simp only [Monitor.sendAll, List.foldl_cons]
    rw [Monitor.sendWebAlert_throttled s a.1 a.2 ha]
    exact ih s (fun b hb => h b (List.mem_cons_of_mem _ hb))

theorem Monitor.sendAll_window (alerts : List (Int × String)) :
    ∀ s : State, (∀ a ∈ alerts, ∀ b ∈ alerts, a.1 - b.1 < 1500) →
      (Monitor.sendAll s alerts).posts.length ≤ s.posts.length + 1 := by
  induction alerts with
  | nil => intro s _; simp [Monitor.sendAll]
  | cons a rest ih =>
    intro s h
    have hrest : ∀ x ∈ rest, ∀ y ∈ rest, x.1 - y.1 < 1500 :=
      fun x hx y hy => h x (List.mem_cons_of_mem _ hx) y (List.mem_cons_of_mem _ hy)
    have hcons : Monitor.sendAll s (a :: rest)
        = Monitor.sendAll (Monitor.sendWebAlert s a.1 a.2) rest := rfl
    rw [hcons]
    by_cases ha : a.1 - s.lastAlertTs < 1500
    · rw [Monitor.sendWebAlert_throttled s a.1 a.2 ha]
      exact ih s hrest
    · have hts : (Monitor.sendWebAlert s a.1 a.2).lastAlertTs = a.1 := by
        rw [Monitor.sendWebAlert_lastAlertTs]
        have : 1500 ≤ a.1 - s.lastAlertTs := by omega
        simp [this]
      rw [Monitor.sendAll_throttled rest _ (fun b hb => by
        rw [hts]
        exact h b (List.mem_cons_of_mem _ hb) a (List.mem_cons_self _ _))]
      rcases Monitor.sendWebAlert_posts_cases s a.1 a.2 with hp | ⟨u, sid, hp⟩ <;>
        rw [hp] <;> simp

/-- C11. The throttle is global to the session, not per label. For every state,
clock value and pair of labels, `sendWebAlert` leaves the same last-dispatch
timestamp and issues the same number of requests for both labels (the two
results differ at most in the label inside the request). For every sequence of
alerts, with any labels, whose clock values all lie less than 1500 ms from one
another, at most one POST is issued. -/
theorem c11_throttle_global (s : State) (now : Int) (m1 m2 : String) :
    (Monitor.sendWebAlert s now m1).lastAlertTs = (Monitor.sendWebAlert s now m2).lastAlertTs ∧
    (Monitor.sendWebAlert s now m1).posts.length = (Monitor.sendWebAlert s now m2).posts.length ∧
    ((Monitor.sendWebAlert s now m1).posts = s.posts ↔
      (Monitor.sendWebAlert s now m2).posts = s.posts) ∧
    (∀ alerts : List (Int × String),
      (∀ a ∈ alerts, ∀ b ∈ alerts, a.1 - b.1 < 1500) →
      (Monitor.sendAll s alerts).posts.length ≤ s.posts.length + 1) := by
  have hlen := Monitor.sendWebAlert_posts_length s now m1 m2
  refine ⟨?_, hlen, ?_, fun alerts h => Monitor.sendAll_window alerts s h⟩
  · rw [Monitor.sendWebAlert_lastAlertTs, Monitor.sendWebAlert_lastAlertTs]
  · have key : ∀ a b : String, (Monitor.sendWebAlert s now a).posts = s.posts →
        (Monitor.sendWebAlert s now b).posts = s.posts := by
      intro a b hab
      have hl := Monitor.sendWebAlert_posts_length s now a b
      rw [hab] at hl
      rcases Monitor.sendWebAlert_posts_cases s now b with hp | ⟨u, sid, hp⟩
      · exact hp
      · rw [hp] at hl
        simp at hl
    exact ⟨key m1 m2, key m2 m1⟩

/-- C11 (witness). Five alerts with five labels within 1.2 s in the started
session of `alice`: one POST. -/
theorem c11_throttle_global_witness :
    (Monitor.sendAll Monitor.started
        [(1704110400000, "COPY_ATTEMPT"), (1704110400300, "WINDOW_BLUR"),
         (1704110400600, "SHORTCUT_V"), (1704110400900, "CONTEXT_MENU"),
         (1704110401200, "EXIT_FULLSCREEN")]).posts.length
      ≤ Monitor.started.posts.length + 1 :=
  (c11_throttle_global Monitor.started 0 "" "").2.2.2
    [(1704110400000, "COPY_ATTEMPT"), (1704110400300, "WINDOW_BLUR"),
     (1704110400600, "SHORTCUT_V"), (1704110400900, "CONTEXT_MENU"),
     (1704110401200, "EXIT_FULLSCREEN")] (by decide)

theorem sessionIdOf_ne (x u iso : String) : sessionIdOf x u iso ≠ "" := by
  intro h
  have := congrArg String.data h
  rw [sessionIdOf_data] at this
  simp at this

theorem newSessionId_present (s : State) (iso sid : String)
    (h : newSessionId s iso = some sid) : sid ≠ "" ∧ ∃ u, s.user = some u := by
  unfold newSessionId at h
  split at h
  · rename_i u x hu hx
    split at h
    · simp only [Option.some.injEq] at h
      exact ⟨h ▸ sessionIdOf_ne x u.username iso, u, hu⟩
    · exact absurd h (by simp)
  · exact absurd h (by simp)

theorem Monitor.setExamStarted_user (s : State) (b : Bool) :
    (Monitor.setExamStarted s b).user = s.user ∧
    (Monitor.setExamStarted s b).userRef = s.userRef := by
  unfold Monitor.setExamStarted
  split
  · exact ⟨rfl, rfl⟩
  · cases hc : s.cleanup <;> cases b <;> simp [Monitor.effect, Monitor.runCleanup, hc]

theorem Frame.user {s t : State} (h : Frame s t) : t.user = s.user := by
  rw [h]

/-- The session invariant: `userRef.current` is the `user` state, and once the
exam is started both the user and a non-empty session identifier are present. -/
theorem Monitor.session_present (as : List Monitor.Action) :
    ∀ s : State, (∀ a ∈ as, Monitor.codeAction a = true) →
      (s.userRef = s.user ∧
        (s.examStarted = true →
          ∃ u sid, s.userRef = some u ∧ s.sessionId = some sid ∧ sid ≠ "")) →
      ((Monitor.run s as).userRef = (Monitor.run s as).user ∧
        ((Monitor.run s as).examStarted = true →
          ∃ u sid, (Monitor.run s as).userRef = some u ∧
            (Monitor.run s as).sessionId = some sid ∧ sid ≠ "")) := by
  induction as with
  | nil => intro s _ h; exact h
  | cons a as ih =>
    intro s hcode h
    have hrest : ∀ b ∈ as, Monitor.codeAction b = true :=
      fun b hb => hcode b (List.mem_cons_of_mem _ hb)
    have ha := hcode a (List.mem_cons_self _ _)
    have hrun : Monitor.run s (a :: as) = Monitor.run (Monitor.step s a) as := rfl
    rw [hrun]
    apply ih _ hrest
    cases a with
    | setExamStarted b => exact absurd ha (by simp [Monitor.codeAction])
    | event e now =>
      have hf := Monitor.dispatch_frame s e now
      simp only [Monitor.step]
      rw [hf.userRef, hf.user, hf.examStarted, hf.sessionId]
      exact h
    | handleStartExam iso =>
      simp only [Monitor.step, Monitor.handleStartExam]
      split
      · rename_i sid u hn hu
        obtain ⟨hne, -⟩ := newSessionId_present s iso sid hn
        have h1 := Monitor.setExamStarted_user { s with sessionId := some sid } true
        have h2 := Monitor.setExamStarted_sessionId { s with sessionId := some sid } true
        refine ⟨?_, fun _ => ⟨u, sid, ?_, ?_, hne⟩⟩
        · simp only [h1.1, h1.2]
          exact h.1
        · simp only [h1.2]
          rw [h.1, hu]
        · simp only [h2]
      · exact h

theorem Monitor.present_of_inSession {s : State} (hsess : Monitor.InSession s)
    (hs : s.examStarted = true) :
    ∃ u sid, s.userRef = some u ∧ s.sessionId = some sid ∧ sid ≠ "" := by
  obtain ⟨u, x, as, hcode, rfl⟩ := hsess
  refine (Monitor.session_present as (Monitor.mount u u x) hcode ⟨?_, ?_⟩).2 hs
  · simp [Monitor.mount, Monitor.effect, State.init]
  · intro h
    simp [Monitor.mount, Monitor.effect, State.init] at h

theorem Monitor.reachable_of_inSession {s : State} (hsess : Monitor.InSession s) :
    Monitor.Reachable s := by
  obtain ⟨u, x, as, -, rfl⟩ := hsess
  exact ⟨u, u, x, as, rfl⟩

theorem Monitor.runEffects_posts_ts (now : Int) (es : List Effect) :
    ∀ t : State, (∃ u sid, t.userRef = some u ∧ t.sessionId = some sid ∧ sid ≠ "") →
      (((runEffects Monitor.sendWebAlert now t es).posts = t.posts ∧
          (runEffects Monitor.sendWebAlert now t es).lastAlertTs = t.lastAlertTs) ∨
        (t.posts.length < (runEffects Monitor.sendWebAlert now t es).posts.length ∧
          (runEffects Monitor.sendWebAlert now t es).lastAlertTs = now)) := by
  induction es with
  | nil => intro t _; exact Or.inl ⟨rfl, rfl⟩
  | cons e es ih =>
    intro t ht
    cases e with
    | preventDefault => simpa [runEffects] using ih t ht
    | returnValue m => simpa [runEffects] using ih t ht
    | consoleLog m => simpa [runEffects] using ih t ht
    | setViolations =>
      simpa [runEffects] using ih { t with violations := t.violations + 1 } ht
    | sendWebAlert m =>
      simp only [runEffects]
      obtain ⟨u, sid, hu, hsid, hne⟩ := ht
      by_cases hthr : now - t.lastAlertTs < 1500
      · rw [Monitor.sendWebAlert_throttled t now m hthr]
        exact ih t ⟨u, sid, hu, hsid, hne⟩
      · have hpass : 1500 ≤ now - t.lastAlertTs := by omega
        rw [Monitor.sendWebAlert_pass t now m u sid hpass hu hsid hne]
        have := ih { t with lastAlertTs := now, posts := t.posts ++ [alertPayload u sid m] }
          ⟨u, sid, hu, hsid, hne⟩
        rcases this with ⟨h1, h2⟩ | ⟨h1, h2⟩
        · refine Or.inr ⟨?_, h2⟩
          rw [h1]
          simp
        · refine Or.inr ⟨?_, h2⟩
          simp only [List.length_append, List.length_singleton] at h1
          omega

/-- C12. The throttle interval is measured from the previous dispatch that was
actually sent. In every state the component reaches by the calls its code makes
with the exam started (the only states in which a handler can call
`sendWebAlert`), the user and a non-empty session identifier are present, so
the guard of line 344 never ends a call. There, for every clock value and
label: a call of `sendWebAlert` that issues no POST leaves the last-dispatch
timestamp (indeed the whole state) unchanged, the timestamp changes only on a
call that issues a POST, and a call that issues a POST sets it to the current
time. The same holds for the call made by the handler of any dispatched
event. -/
theorem c12_timestamp_only_on_post (s : State) (now : Int) (m : String)
    (hsess : Monitor.InSession s) (hs : s.examStarted = true) :
    (∃ u sid, s.userRef = some u ∧ s.sessionId = some sid ∧ sid ≠ "") ∧
    ((Monitor.sendWebAlert s now m).posts = s.posts → Monitor.sendWebAlert s now m = s) ∧
    ((Monitor.sendWebAlert s now m).posts = s.posts →
      (Monitor.sendWebAlert s now m).lastAlertTs = s.lastAlertTs) ∧
    ((Monitor.sendWebAlert s now m).lastAlertTs ≠ s.lastAlertTs →
      (Monitor.sendWebAlert s now m).posts ≠ s.posts) ∧
    ((Monitor.sendWebAlert s now m).posts ≠ s.posts →
      (Monitor.sendWebAlert s now m).lastAlertTs = now) ∧
    (∀ e : BrowserEvent,
      ((Monitor.dispatch s e now).posts = s.posts →
        (Monitor.dispatch s e now).lastAlertTs = s.lastAlertTs) ∧
      ((Monitor.dispatch s e now).lastAlertTs ≠ s.lastAlertTs →
        (Monitor.dispatch s e now).posts ≠ s.posts)) := by
  obtain ⟨u, sid, hu, hsid, hne⟩ := Monitor.present_of_inSession hsess hs
  have hkey : (Monitor.sendWebAlert s now m).posts = s.posts →
      Monitor.sendWebAlert s now m = s := by
    intro h
    by_cases hthr : now - s.lastAlertTs < 1500
    · exact Monitor.sendWebAlert_throttled s now m hthr
    · have hpass : 1500 ≤ now - s.lastAlertTs := by omega
      rw [Monitor.sendWebAlert_pass s now m u sid hpass hu hsid hne] at h
      simp at h
  have hpost : (Monitor.sendWebAlert s now m).posts ≠ s.posts →
      (Monitor.sendWebAlert s now m).lastAlertTs = now := by
    intro h
    by_cases hthr : now - s.lastAlertTs < 1500
    · rw [Monitor.sendWebAlert_throttled s now m hthr] at h
      exact absurd rfl h
    · have hpass : 1500 ≤ now - s.lastAlertTs := by omega
      rw [Monitor.sendWebAlert_pass s now m u sid hpass hu hsid hne]
  have hdisp : ∀ e : BrowserEvent,
      (Monitor.dispatch s e now).posts = s.posts →
        (Monitor.dispatch s e now).lastAlertTs = s.lastAlertTs := by
    intro e h
    obtain ⟨g, -, hl⟩ := Monitor.armed_of_reachable (Monitor.reachable_of_inSession hsess) hs
    rw [Monitor.dispatch_armed s g e now hl] at h ⊢
    rcases Monitor.runEffects_posts_ts now (Monitor.handle e) s ⟨u, sid, hu, hsid, hne⟩
      with ⟨-, h2⟩ | ⟨h1, -⟩
    · exact h2
    · rw [h] at h1
      exact absurd h1 (lt_irrefl _)
  refine ⟨⟨u, sid, hu, hsid, hne⟩, hkey, fun h => by rw [hkey h],
    fun hts hp => hts (by rw [hkey hp]), hpost, fun e => ⟨hdisp e, fun hts hp => hts (hdisp e hp)⟩⟩

/-- C12 (witness). A throttled alert 400 ms after a dispatched one in the
session of `alice` issues no POST and leaves the timestamp where it was. -/
theorem c12_timestamp_only_on_post_witness :
    (Monitor.sendWebAlert
        (Monitor.dispatch Monitor.started BrowserEvent.copy 1704110400000)
        1704110400400 "CUT_ATTEMPT").lastAlertTs
      = (Monitor.dispatch Monitor.started BrowserEvent.copy 1704110400000).lastAlertTs :=
  (c12_timestamp_only_on_post
      (Monitor.dispatch Monitor.started BrowserEvent.copy 1704110400000)
      1704110400400 "CUT_ATTEMPT"
      ⟨some ⟨"alice"⟩, some "42",
        [Monitor.Action.handleStartExam "2024-01-01T12:00:00.000Z",
         Monitor.Action.event BrowserEvent.copy 1704110400000],
        by decide, rfl⟩
      (by decide)).2.2.1 (by decide)

theorem defaultPrevented_armed (s : State) (g : Nat) (e : BrowserEvent)
    (h : s.listeners = Monitor.listeners g) :
    defaultPrevented s e = (Monitor.handle e).contains Effect.preventDefault := by
  cases e <;>
    simp [defaultPrevented, h, Monitor.listeners, Listener.listensTo, BrowserEvent.type,
      BrowserEvent.target, Handler.call, Monitor.handle]

/-- C13. While the monitor is armed, the default action is suppressed for every
copy, cut, paste and context-menu event, for every ctrl/cmd+{v,c,x,s,p} keydown
and for every F12 keydown, and `preventDefault` is not called for a
visibility change, a window blur, a fullscreen change or a keydown that
matches neither a listed shortcut nor F12 (nor for a page-unload attempt,
whose handler sets `returnValue` instead). -/
theorem c13_default_suppressed (s : State) (hr : Monitor.Reachable s)
    (hs : s.examStarted = true) :
    defaultPrevented s BrowserEvent.copy = true ∧
    defaultPrevented s BrowserEvent.cut = true ∧
    defaultPrevented s BrowserEvent.paste = true ∧
    defaultPrevented s BrowserEvent.contextmenu = true ∧
    (∀ (key : Option String) (ctrlKey metaKey : Bool),
      (defaultPrevented s (BrowserEvent.keydown key ctrlKey metaKey) = true ↔
        (((ctrlKey || metaKey) = true ∧
            toLowerCase (key.getD "") ∈ ["v", "c", "x", "s", "p"]) ∨
          key = some "F12"))) ∧
    (∀ hidden : Bool, defaultPrevented s (BrowserEvent.visibilitychange hidden) = false) ∧
    defaultPrevented s BrowserEvent.blur = false ∧
    (∀ fs : Bool, defaultPrevented s (BrowserEvent.fullscreenchange fs) = false) ∧
    defaultPrevented s BrowserEvent.beforeunload = false := by
  obtain ⟨g, -, hl⟩ := Monitor.armed_of_reachable hr hs
  refine ⟨?_, ?_, ?_, ?_, ?_, ?_, ?_, ?_, ?_⟩
  · rw [defaultPrevented_armed s g _ hl]; decide
  · rw [defaultPrevented_armed s g _ hl]; decide
  · rw [defaultPrevented_armed s g _ hl]; decide
  · rw [defaultPrevented_armed s g _ hl]; decide
  · intro key ctrlKey metaKey
    rw [defaultPrevented_armed s g _ hl]
    simp only [Monitor.handle]
    by_cases ha : (ctrlKey || metaKey) = true ∧
        toLowerCase (key.getD "") ∈ ["v", "c", "x", "s", "p"]
    · rw [onKeyDown_shortcut key ctrlKey metaKey ha.1 ha.2]
      exact ⟨fun _ => Or.inl ha, fun _ => by simp⟩
    · by_cases hb : key = some "F12"
      · subst hb
        rw [onKeyDown_f12]
        simp only [or_true, iff_true]
        decide
      · rw [onKeyDown_other key ctrlKey metaKey ha hb]
        constructor
        · intro h; simp at h
        · rintro (h | h)
          · exact absurd h ha
          · exact absurd h hb
  · intro hidden
    rw [defaultPrevented_armed s g _ hl]
    cases hidden <;> decide
  · rw [defaultPrevented_armed s g _ hl]; decide
  · intro fs
    rw [defaultPrevented_armed s g _ hl]
    cases fs <;> decide
  · rw [defaultPrevented_armed s g _ hl]; decide

/-- C13 (witness). In the started session of `alice`, ctrl+S is suppressed and
a plain `s` is not. -/
theorem c13_default_suppressed_witness :
    defaultPrevented Monitor.started (BrowserEvent.keydown (some "s") true false) = true ∧
    defaultPrevented Monitor.started (BrowserEvent.keydown (some "s") false false) = false := by
  have h := (c13_default_suppressed Monitor.started
    ⟨some ⟨"alice"⟩, some ⟨"alice"⟩, some "42",
      [Monitor.Action.handleStartExam "2024-01-01T12:00:00.000Z"], rfl⟩ (by decide)).2.2.2.2.1
  refine ⟨(h (some "s") true false).2 (Or.inl (by decide)), ?_⟩
  have h2 := h (some "s") false false
  cases hd : defaultPrevented Monitor.started (BrowserEvent.keydown (some "s") false false)
  · rfl
  · exact absurd (h2.1 hd) (by decide)

theorem MonitorPage.sendWebAlert_eq (p : Page) (now : Int) (label : String)
    (r : Response Unit) :
    ∃ con, MonitorPage.sendWebAlert p now label r
      = Completion.done { p with core := Monitor.sendWebAlert p.core now label, console := con } := by
  unfold MonitorPage.sendWebAlert Monitor.sendWebAlert
  by_cases ht : now - p.core.lastAlertTs < 1500
  · exact ⟨p.console, by simp [ht]⟩
  · cases hu : p.core.userRef with
    | none => exact ⟨p.console, by simp [ht, hu]⟩
    | some u =>
      cases hs : truthy p.core.sessionId with
      | false => exact ⟨p.console, by simp [ht, hu, hs]⟩
      | true =>
        cases r with
        | ok d => exact ⟨p.console, by simp [ht, hu, hs, axiosPostLog]⟩
        | fail err =>
          exact ⟨p.console ++ ["Failed to send web alert: " ++ err],
            by simp [ht, hu, hs, axiosPostLog]⟩

theorem LivePage.sendWebAlert_eq_live (p : Page) (now : Int) (label : String)
    (r : Response Unit) :
    ∃ con, LivePage.sendWebAlert p now label r
      = Completion.done { p with core := Live.sendWebAlert p.core now label, console := con } := by
  unfold LivePage.sendWebAlert Live.sendWebAlert
  cases hu : p.core.userRef with
  | none => exact ⟨p.console, by simp⟩
  | some u =>
    cases hs : truthy p.core.sessionId with
    | false => exact ⟨p.console, by simp [hs]⟩
    | true =>
      cases r with
      | ok d => exact ⟨p.console, by simp [hs, axiosPostLog, hu]⟩
      | fail err =>
        exact ⟨p.console ++ ["Failed to send web alert: " ++ err],
          by simp [hs, axiosPostLog, hu]⟩

theorem Live.sendWebAlert_posts_cases_live (s : State) (now : Int) (m : String) :
    (Live.sendWebAlert s now m).posts = s.posts ∨
      ∃ u sid, (Live.sendWebAlert s now m).posts = s.posts ++ [alertPayload u sid m] := by
  unfold Live.sendWebAlert
  split
  · exact Or.inl rfl
  · split
    · exact Or.inl rfl
    · exact Or.inr ⟨_, _, rfl⟩

/-- C14. A network failure while dispatching a violation is swallowed. For
every page state, clock value, label and outcome of the POST to `/log_data`
(resolved or rejected), `sendWebAlert` runs to its end without raising, its
effect on the monitor state is the one of the outcome-free model (so at most
one request is issued: no second attempt), and the error message, the loading
flag, `examStarted`, the violation counter, the alerts shown and the route are
unchanged. This holds for the throttled version and for the exported one. -/
theorem c14_alert_failure_swallowed (p : Page) (now : Int) (label : String)
    (r : Response Unit) :
    (∃ q, MonitorPage.sendWebAlert p now label r = Completion.done q ∧
      q.core = Monitor.sendWebAlert p.core now label ∧
      q.core.posts.length ≤ p.core.posts.length + 1 ∧
      q.error = p.error ∧ q.loading = p.loading ∧
      q.core.examStarted = p.core.examStarted ∧ q.core.violations = p.core.violations ∧
      q.alerts = p.alerts ∧ q.route = p.route) ∧
    (∃ q, LivePage.sendWebAlert p now label r = Completion.done q ∧
      q.core = Live.sendWebAlert p.core now label ∧
      q.core.posts.length ≤ p.core.posts.length + 1 ∧
      q.error = p.error ∧ q.loading = p.loading ∧
      q.core.examStarted = p.core.examStarted ∧ q.core.violations = p.core.violations ∧
      q.alerts = p.alerts ∧ q.route = p.route) := by
  constructor
  · obtain ⟨con, h⟩ := MonitorPage.sendWebAlert_eq p now label r
    refine ⟨_, h, rfl, ?_, rfl, rfl, ?_, ?_, rfl, rfl⟩
    · rcases Monitor.sendWebAlert_posts_cases p.core now label with hp | ⟨u, sid, hp⟩ <;>
        simp [hp]
    · exact (Monitor.sendWebAlert_frame p.core now label).examStarted
    · exact Monitor.sendWebAlert_violations p.core now label
  · obtain ⟨con, h⟩ := LivePage.sendWebAlert_eq_live p now label r
    refine ⟨_, h, rfl, ?_, rfl, rfl, ?_, ?_, rfl, rfl⟩
    · rcases Live.sendWebAlert_posts_cases_live p.core now label with hp | ⟨u, sid, hp⟩ <;>
        simp [hp]
    · exact (Live.live_sendWebAlert_frame p.core now label).examStarted
    · unfold Live.sendWebAlert
      split
      · rfl
      · split <;> rfl

theorem MonitorPage.handleStartExam_core (p : Page) (iso : String) (r : Response Unit) :
    (MonitorPage.handleStartExam p iso r).state.core = Monitor.handleStartExam p.core iso ∧
    (MonitorPage.handleStartExam p iso r).state.alerts = p.alerts ∧
    (MonitorPage.handleStartExam p iso r).state.error = p.error ∧
    (MonitorPage.handleStartExam p iso r).state.route = p.route ∧
    (MonitorPage.handleStartExam p iso r).state.loading = p.loading ∧
    MonitorPage.handleStartExam p iso r
      = Completion.done (MonitorPage.handleStartExam p iso r).state := by
  unfold MonitorPage.handleStartExam Monitor.handleStartExam
  split
  · cases r <;> simp [axiosPostLog, Completion.state]
  · simp [Completion.state]

/-- C15 (counterexample). In the started session of `alice` (second version),
with the submission POST resolved and the "Exam Finished" POST rejected,
`submitExam` has issued both requests, shows the alert "Failed to submit exam.
Try again." and does not navigate, whereas with both resolved it shows the
success message and navigates to the dashboard. -/
theorem c15_finished_log_failure_alert :
    (MonitorPage.submitExam MonitorPage.started (Response.ok ()) (Response.ok ())).state.alerts
      = ["Exam submitted. Redirecting to dashboard."] ∧
    (MonitorPage.submitExam MonitorPage.started (Response.ok ()) (Response.ok ())).state.route
      = some "/student/dashboard" ∧
    (MonitorPage.submitExam MonitorPage.started (Response.ok ())
        (Response.fail "Network Error")).state.requests
      = [Request.submitExam "alice" (some "42") "exam_42_alice_20240101T120000000Z" []] ∧
    (MonitorPage.submitExam MonitorPage.started (Response.ok ())
        (Response.fail "Network Error")).state.core.posts
      = MonitorPage.started.core.posts
          ++ [alertPayload ⟨"alice"⟩ "exam_42_alice_20240101T120000000Z" "Exam Finished"] ∧
    (MonitorPage.submitExam MonitorPage.started (Response.ok ())
        (Response.fail "Network Error")).state.alerts
      = ["Failed to submit exam. Try again."] ∧
    (MonitorPage.submitExam MonitorPage.started (Response.ok ())
        (Response.fail "Network Error")).state.route = none := by
  decide

/-- C15 (amended). A failure of the "Exam Started" POST is never shown to the
user: `handleStartExam` of the second version ends in the same state whether
the POST is resolved or rejected, with the monitor state of the outcome-free
model and the alerts, error message, route and loading flag untouched. In
`submitExam` of the second version both POSTs are inside one `try`: with user
and session present, when both are resolved the success message is shown and
the page navigates to the dashboard; when the submission is rejected the log
call is not made, and when either request is rejected (also the "Exam
Finished" one after a resolved submission) the alert "Failed to submit exam.
Try again." is shown and the page does not navigate; `loading` is cleared in
every case. The exported component makes neither lifecycle request: its
`handleStartExam` issues no POST and its Submit handler always shows its
success message and navigates. -/
theorem c15_lifecycle_log (p : Page) (iso err : String) (rLog : Response Unit) (u : User)
    (sid : String) (hu : p.core.userRef = some u) (hsid : p.core.sessionId = some sid)
    (hne : sid ≠ "") :
    MonitorPage.handleStartExam p iso (Response.fail err)
      = MonitorPage.handleStartExam p iso (Response.ok ()) ∧
    ((MonitorPage.handleStartExam p iso (Response.fail err)).state.core
        = Monitor.handleStartExam p.core iso ∧
      (MonitorPage.handleStartExam p iso (Response.fail err)).state.alerts = p.alerts ∧
      (MonitorPage.handleStartExam p iso (Response.fail err)).state.error = p.error ∧
      (MonitorPage.handleStartExam p iso (Response.fail err)).state.route = p.route ∧
      (MonitorPage.handleStartExam p iso (Response.fail err)).state.loading = p.loading ∧
      MonitorPage.handleStartExam p iso (Response.fail err)
        = Completion.done (MonitorPage.handleStartExam p iso (Response.fail err)).state) ∧
    MonitorPage.submitExam p (Response.ok ()) (Response.ok ())
      = Completion.done
          { p with
            core := { p.core with posts := p.core.posts ++ [alertPayload u sid "Exam Finished"] },
            loading := false,
            alerts := p.alerts ++ ["Exam submitted. Redirecting to dashboard."],
            route := some "/student/dashboard",
            requests := p.requests ++ [Request.submitExam u.username p.core.examId sid p.answers] } ∧
    MonitorPage.submitExam p (Response.ok ()) (Response.fail err)
      = Completion.done
          { p with
            core := { p.core with posts := p.core.posts ++ [alertPayload u sid "Exam Finished"] },
            loading := false,
            alerts := p.alerts ++ ["Failed to submit exam. Try again."],
            console := p.console ++ ["Submit failed: " ++ err],
            requests := p.requests ++ [Request.submitExam u.username p.core.examId sid p.answers] } ∧
    MonitorPage.submitExam p (Response.fail err) rLog
      = Completion.done
          { p with
            loading := false,
            alerts := p.alerts ++ ["Failed to submit exam. Try again."],
            console := p.console ++ ["Submit failed: " ++ err],
            requests := p.requests ++ [Request.submitExam u.username p.core.examId sid p.answers] } ∧
    (LivePage.handleStartExam p iso
        = Completion.done { p with core := Live.handleStartExam p.core iso } ∧
      (Live.handleStartExam p.core iso).posts = p.core.posts) ∧
    LivePage.onSubmitClick p
      = Completion.done
          { p with alerts := p.alerts ++ ["Exam submitted! Proctoring data has been saved."],
                   route := some "/student/dashboard" } := by
  have hcore := MonitorPage.handleStartExam_core p iso (Response.fail err)
  refine ⟨?_, hcore, ?_, ?_, ?_, ⟨rfl, ?_⟩, rfl⟩
  · unfold MonitorPage.handleStartExam
    split
    · simp [axiosPostLog]
    · rfl
  · simp [MonitorPage.submitExam, hu, hsid, truthy, hne, axiosRequest, axiosPostLog]
  · simp [MonitorPage.submitExam, hu, hsid, truthy, hne, axiosRequest, axiosPostLog]
  · simp [MonitorPage.submitExam, hu, hsid, truthy, hne, axiosRequest]
  · unfold Live.handleStartExam
    split
    · rfl
    · unfold Live.setExamStarted
      split
      · rfl
      · rename_i sid2 _ _
        cases hc : p.core.cleanup <;> simp [Live.effect, Live.runCleanup, hc]

/-- C15 (witness). The started session of `alice` with the submission resolved
and the "Exam Finished" POST rejected. -/
theorem c15_lifecycle_log_witness :
    MonitorPage.submitExam MonitorPage.started (Response.ok ()) (Response.fail "Network Error")
      = Completion.done
          { MonitorPage.started with
            core := { MonitorPage.started.core with
              posts := MonitorPage.started.core.posts
                ++ [alertPayload ⟨"alice"⟩ "exam_42_alice_20240101T120000000Z" "Exam Finished"] },
            loading := false,
            alerts := MonitorPage.started.alerts ++ ["Failed to submit exam. Try again."],
            console := MonitorPage.started.console ++ ["Submit failed: " ++ "Network Error"],
            requests := MonitorPage.started.requests
              ++ [Request.submitExam (User.mk "alice").username MonitorPage.started.core.examId
                    "exam_42_alice_20240101T120000000Z" MonitorPage.started.answers] } :=
  (c15_lifecycle_log MonitorPage.started "2024-01-01T12:00:00.000Z" "Network Error"
    (Response.ok ()) ⟨"alice"⟩ "exam_42_alice_20240101T120000000Z"
    (by decide) (by decide) (by decide)).2.2.2.1

theorem Live.live_detailsError_ne (x : String) : Live.detailsError x ≠ "" := by
  intro h
  have := congrArg String.data h
  simp [Live.detailsError, String.data_append] at this

theorem Monitor.detailsError_ne (x : String) : Monitor.detailsError x ≠ "" := by
  intro h
  have := congrArg String.data h
  simp [Monitor.detailsError, String.data_append] at this

/-- C17 (counterexample). In the second version, for `alice` and exam `42` with
the details loaded, a rejected questions request leaves the error message
empty: the page renders the instructions view, not the error view, and only
the console holds a warning. -/
theorem c17_questions_failure_not_surfaced :
    render (questionsEffect
        { Page.init (Monitor.mount (some ⟨"alice"⟩) (some ⟨"alice"⟩) (some "42"))
          with loading := false, exam := some "Algebra" }
        (Response.fail "Network Error")) = View.instructions ∧
    (questionsEffect
        { Page.init (Monitor.mount (some ⟨"alice"⟩) (some ⟨"alice"⟩) (some "42"))
          with loading := false, exam := some "Algebra" }
        (Response.fail "Network Error")).error = "" ∧
    (questionsEffect
        { Page.init (Monitor.mount (some ⟨"alice"⟩) (some ⟨"alice"⟩) (some "42"))
          with loading := false, exam := some "Algebra" }
        (Response.fail "Network Error")).requests = [Request.getQuestions "42"] ∧
    (questionsEffect
        { Page.init (Monitor.mount (some ⟨"alice"⟩) (some ⟨"alice"⟩) (some "42"))
          with loading := false, exam := some "Algebra" }
        (Response.fail "Network Error")).console = ["Could not load questions: Network Error"] := by
  decide

/-- C17 (amended). With the user loaded and a non-empty exam id, a rejected
exam-details request sets a non-empty error message and clears `loading`, so
the page renders the error view with the back-to-dashboard action; exactly one
details request is issued and the dependencies of the effect (`examId`,
`user`) are unchanged, so it is not issued again. This holds with the error
text of either version. A rejected questions request (second version) changes
neither the error message nor `loading`: it issues one request, logs a console
warning, sets the questions to the empty list, and the page renders the same
view as before. -/
theorem c17_fetch_failure (p : Page) (u : User) (x err : String)
    (hu : p.core.user = some u) (hx : p.core.examId = some x) (hne : x ≠ "") :
    (∀ msg : String → String, msg x ≠ "" →
      (detailsEffect msg p (Response.fail err)).error = msg x ∧
      (detailsEffect msg p (Response.fail err)).loading = false ∧
      render (detailsEffect msg p (Response.fail err)) = View.error (msg x) "/student/dashboard" ∧
      (detailsEffect msg p (Response.fail err)).requests
        = p.requests ++ [Request.getExamDetails x] ∧
      (detailsEffect msg p (Response.fail err)).core = p.core) ∧
    Live.detailsError x ≠ "" ∧ Monitor.detailsError x ≠ "" ∧
    ((questionsEffect p (Response.fail err)).error = p.error ∧
      (questionsEffect p (Response.fail err)).loading = p.loading ∧
      (questionsEffect p (Response.fail err)).questions = [] ∧
      (questionsEffect p (Response.fail err)).requests = p.requests ++ [Request.getQuestions x] ∧
      (questionsEffect p (Response.fail err)).core = p.core ∧
      render (questionsEffect p (Response.fail err)) = render p) := by
  refine ⟨fun msg hmsg => ?_, Live.live_detailsError_ne x, Monitor.detailsError_ne x, ?_⟩
  · have e : detailsEffect msg p (Response.fail err)
        = { p with loading := false, error := msg x,
                   console := p.console ++ ["Error fetching exam details: " ++ err],
                   requests := p.requests ++ [Request.getExamDetails x] } := by
      simp [detailsEffect, hu, hx, hne, fetchExamDetails, axiosRequest]
    rw [e]
    refine ⟨rfl, rfl, ?_, rfl, rfl⟩
    simp [render, hu, hmsg]
  · have e : questionsEffect p (Response.fail err)
        = { p with questions := [], loadingQuestions := false,
                   console := p.console ++ ["Could not load questions: " ++ err],
                   requests := p.requests ++ [Request.getQuestions x] } := by
      simp [questionsEffect, hu, hx, hne, fetchQuestions, axiosRequest]
    rw [e]
    exact ⟨rfl, rfl, rfl, rfl, rfl, rfl⟩

/-- C17 (witness). A rejected details request for `alice` and exam `42` in the
exported version renders the error view. -/
theorem c17_fetch_failure_witness :
    render (detailsEffect Live.detailsError
        (Page.init (Live.mount (some ⟨"alice"⟩) (some ⟨"alice"⟩) (some "42")))
        (Response.fail "Network Error"))
      = View.error (Live.detailsError "42") "/student/dashboard" :=
  ((c17_fetch_failure (Page.init (Live.mount (some ⟨"alice"⟩) (some ⟨"alice"⟩) (some "42")))
      ⟨"alice"⟩ "42" "Network Error" rfl rfl (by decide)).1
    Live.detailsError (by decide)).2.2.1

/-- C16. `EXIT_FULLSCREEN` is reported only when fullscreen mode is exited after
having been entered. For every `fullscreenchange` event a browser fires (the
fullscreen element has changed, so there is one before or after) and that is
handled while armed, `onFullScreenChange` counts one violation and calls
`sendWebAlert("EXIT_FULLSCREEN")` if and only if the document has no fullscreen
element now and had one before the event; otherwise it does nothing and the
state is unchanged. In particular a `fullscreenchange` fired when there was no
fullscreen element before (fullscreen is being entered) records nothing. -/
theorem c16_exit_fullscreen_iff (s : State) (now : Int) (hadElement hasElement : Bool)
    (hr : Monitor.Reachable s) (hs : s.examStarted = true)
    (hfire : fullscreenChangeFires hadElement hasElement = true) :
    Monitor.dispatch s (BrowserEvent.fullscreenchange hasElement) now
      = runEffects Monitor.sendWebAlert now s (onFullScreenChange hasElement) ∧
    (onFullScreenChange hasElement
        = [Effect.setViolations, Effect.sendWebAlert "EXIT_FULLSCREEN"]
      ↔ (hasElement = false ∧ hadElement = true)) ∧
    ((Monitor.dispatch s (BrowserEvent.fullscreenchange hasElement) now).violations
        = s.violations + 1
      ↔ (hasElement = false ∧ hadElement = true)) ∧
    ((hasElement = false ∧ hadElement = true) →
      Monitor.dispatch s (BrowserEvent.fullscreenchange hasElement) now
        = Monitor.sendWebAlert { s with violations := s.violations + 1 } now
            "EXIT_FULLSCREEN") ∧
    (¬ (hasElement = false ∧ hadElement = true) →
      onFullScreenChange hasElement = [] ∧
      Monitor.dispatch s (BrowserEvent.fullscreenchange hasElement) now = s) ∧
    (hadElement = false →
      Monitor.dispatch s (BrowserEvent.fullscreenchange hasElement) now = s) := by
  obtain ⟨g, -, hl⟩ := Monitor.armed_of_reachable hr hs
  have e0 : Monitor.dispatch s (BrowserEvent.fullscreenchange hasElement) now
      = runEffects Monitor.sendWebAlert now s (onFullScreenChange hasElement) :=
    Monitor.dispatch_armed s g _ now hl
  have e1 : Monitor.dispatch s (BrowserEvent.fullscreenchange false) now
      = Monitor.sendWebAlert { s with violations := s.violations + 1 } now
          "EXIT_FULLSCREEN" := by
    rw [Monitor.dispatch_armed s g _ now hl]
    simp [Monitor.handle, onFullScreenChange, runEffects]
  have e2 : Monitor.dispatch s (BrowserEvent.fullscreenchange true) now = s := by
    rw [Monitor.dispatch_armed s g _ now hl]
    simp [Monitor.handle, onFullScreenChange, runEffects]
  have e3 : (Monitor.dispatch s (BrowserEvent.fullscreenchange false) now).violations
      = s.violations + 1 := by
    rw [e1, Monitor.sendWebAlert_violations]
  refine ⟨e0, ?_, ?_, ?_, ?_, ?_⟩
  · cases hasElement <;> cases hadElement <;>
      simp_all [fullscreenChangeFires, onFullScreenChange]
  · cases hasElement <;> cases hadElement <;> simp_all [fullscreenChangeFires]
  · rintro ⟨h1, -⟩
    subst h1
    exact e1
  · intro h
    cases hasElement <;> cases hadElement <;>
      simp_all [fullscreenChangeFires, onFullScreenChange]
  · intro h
    subst h
    cases hasElement
    · simp [fullscreenChangeFires] at hfire
    · exact e2

/-- C16 (witness). Leaving fullscreen in the started session of `alice` counts
one violation. -/
theorem c16_exit_fullscreen_iff_witness :
    (Monitor.dispatch Monitor.started (BrowserEvent.fullscreenchange false)
        1704110405000).violations = Monitor.started.violations + 1 :=
  ((c16_exit_fullscreen_iff Monitor.started 1704110405000 true false
    ⟨some ⟨"alice"⟩, some ⟨"alice"⟩, some "42",
      [Monitor.Action.handleStartExam "2024-01-01T12:00:00.000Z"], rfl⟩ (by decide)
    (by decide)).2.2.1).2 ⟨rfl, rfl⟩

theorem attachAll_ok (raises : Listener → Bool) (L : List Listener) :
    ∀ reg, (∀ l ∈ L, raises l = false) →
      attachAll raises L reg = Completion.done (L.foldl addEventListener reg) := by
  induction L with
  | nil => intro reg _; rfl
  | cons l L ih =>
    intro reg h
    have hl := h l (List.mem_cons_self _ _)
    simp only [attachAll, hl, Bool.false_eq_true, if_false, List.foldl_cons]
    exact ih _ (fun x hx => h x (List.mem_cons_of_mem _ hx))

theorem detachAll_ok (raises : Listener → Bool) (L : List Listener) :
    ∀ reg, (∀ l ∈ L, raises l = false) →
      detachAll raises L reg = Completion.done (L.foldl removeEventListener reg) := by
  induction L with
  | nil => intro reg _; rfl
  | cons l L ih =>
    intro reg h
    have hl := h l (List.mem_cons_self _ _)
    simp only [detachAll, hl, Bool.false_eq_true, if_false, List.foldl_cons]
    exact ih _ (fun x hx => h x (List.mem_cons_of_mem _ hx))

theorem attachAll_raised (raises : Listener → Bool) (pre : List Listener) (l : Listener)
    (post : List Listener) :
    ∀ reg, (∀ x ∈ pre, raises x = false) → raises l = true →
      attachAll raises (pre ++ l :: post) reg
        = Completion.raised (pre.foldl addEventListener reg) "addEventListener raised" := by
  induction pre with
  | nil => intro reg _ hl; simp [attachAll, hl]
  | cons a pre ih =>
    intro reg h hl
    have ha := h a (List.mem_cons_self _ _)
    simp only [List.cons_append, attachAll, ha, Bool.false_eq_true, if_false, List.foldl_cons]
    exact ih _ (fun x hx => h x (List.mem_cons_of_mem _ hx)) hl

theorem detachAll_raised (raises : Listener → Bool) (pre : List Listener) (l : Listener)
    (post : List Listener) :
    ∀ reg, (∀ x ∈ pre, raises x = false) → raises l = true →
      detachAll raises (pre ++ l :: post) reg
        = Completion.raised (pre.foldl removeEventListener reg) "removeEventListener raised" := by
  induction pre with
  | nil => intro reg _ hl; simp [detachAll, hl]
  | cons a pre ih =>
    intro reg h hl
    have ha := h a (List.mem_cons_self _ _)
    simp only [List.cons_append, detachAll, ha, Bool.false_eq_true, if_false, List.foldl_cons]
    exact ih _ (fun x hx => h x (List.mem_cons_of_mem _ hx)) hl

/-- C18 (counterexample). Suppose registering (or removing) the `paste`
listener raises. Attaching the nine listeners of run 1 to an empty registry
stops at that call: only `copy` and `cut` are attached and the six listeners
after `paste` are not. Detaching from the full registry stops there too: only
`copy` and `cut` are removed and seven listeners stay attached. -/
theorem c18_no_fault_isolation :
    attachAll (fun l => l.handler == Handler.onPaste) (Monitor.listeners 1) []
      = Completion.raised ((Monitor.listeners 1).take 2) "addEventListener raised" ∧
    (attachAll (fun l => l.handler == Handler.onPaste) (Monitor.listeners 1) []).state.length = 2 ∧
    detachAll (fun l => l.handler == Handler.onPaste) (Monitor.listeners 1) (Monitor.listeners 1)
      = Completion.raised ((Monitor.listeners 1).drop 2) "removeEventListener raised" ∧
    (detachAll (fun l => l.handler == Handler.onPaste) (Monitor.listeners 1)
        (Monitor.listeners 1)).state.length = 7 := by
  decide

/-- C18 (amended). Attaching and detaching are plain statement sequences with no
fault isolation. When no call raises (as `addEventListener` and
`removeEventListener` do not, for valid arguments), all listeners of the fixed
set are attached, and after the cleanup none of them is left. When the call
for one listener raises, the calls before it have taken effect and the calls
after it are not made: the listeners before it are attached (or detached) and
those after it are not. -/
theorem c18_attach_detach_sequential (raises : Listener → Bool) (reg : List Listener)
    (g : Nat) :
    ((∀ l ∈ Monitor.listeners g, raises l = false) →
      attachAll raises (Monitor.listeners g) reg
        = Completion.done ((Monitor.listeners g).foldl addEventListener reg) ∧
      detachAll raises (Monitor.listeners g) reg = Completion.done (Monitor.cleanup g reg) ∧
      attachAll raises (Monitor.listeners g) [] = Completion.done (Monitor.listeners g) ∧
      detachAll raises (Monitor.listeners g) (Monitor.listeners g) = Completion.done []) ∧
    (∀ (pre : List Listener) (l : Listener) (post : List Listener),
      Monitor.listeners g = pre ++ l :: post → (∀ x ∈ pre, raises x = false) →
      raises l = true →
      attachAll raises (Monitor.listeners g) reg
        = Completion.raised (pre.foldl addEventListener reg) "addEventListener raised" ∧
      detachAll raises (Monitor.listeners g) reg
        = Completion.raised (pre.foldl removeEventListener reg)
            "removeEventListener raised") := by
  constructor
  · intro h
    refine ⟨attachAll_ok raises _ reg h, detachAll_ok raises _ reg h, ?_, ?_⟩
    · rw [attachAll_ok raises _ [] h, Monitor.attach_nil]
    · rw [detachAll_ok raises _ _ h]
      exact congrArg Completion.done (Monitor.cleanup_listeners g)
  · intro pre l post hsplit hpre hl
    rw [hsplit]
    exact ⟨attachAll_raised raises pre l post reg hpre hl,
      detachAll_raised raises pre l post reg hpre hl⟩

/-- C18 (witness). With no raising call, the nine listeners of run 1 are
attached to an empty registry and all removed again. -/
theorem c18_attach_detach_sequential_witness :
    attachAll (fun _ => false) (Monitor.listeners 1) [] = Completion.done (Monitor.listeners 1) ∧
    detachAll (fun _ => false) (Monitor.listeners 1) (Monitor.listeners 1)
      = Completion.done [] :=
  ⟨((c18_attach_detach_sequential (fun _ => false) [] 1).1 (fun _ _ => rfl)).2.2.1,
   ((c18_attach_detach_sequential (fun _ => false) [] 1).1 (fun _ _ => rfl)).2.2.2⟩

theorem Monitor.setExamStarted_lastAlertTs (s : State) (b : Bool) :
    (Monitor.setExamStarted s b).lastAlertTs = s.lastAlertTs := by
  unfold Monitor.setExamStarted
  split
  · rfl
  · cases hc : s.cleanup <;> cases b <;> simp [Monitor.effect, Monitor.runCleanup, hc]

theorem Monitor.handleStartExam_lastAlertTs (s : State) (iso : String) :
    (Monitor.handleStartExam s iso).lastAlertTs = s.lastAlertTs := by
  unfold Monitor.handleStartExam
  split
  · simp [Monitor.setExamStarted_lastAlertTs]
  · rfl

/-- C19. The throttle of `sendWebAlert` is a function of the current time and
the last-dispatch timestamp, with the interval fixed at 1500 ms: the call
passes if and only if `now - last ≥ 1500`; the timestamp afterwards is `now`
when it passes and the old value when it denies (a denied call changes
nothing); with user and session present a POST is issued exactly when it
passes. The timestamp is 0 when the component is mounted and still 0 after
`handleStartExam`. Consequently an alert exactly 1500 ms after the last passed
one is allowed, and with the timestamp at its initial value 0 an alert is
allowed exactly when the clock value is at least 1500. -/
theorem c19_throttle_function (s : State) (now : Int) (m : String) :
    (Monitor.sendWebAlert s now m).lastAlertTs
      = (if 1500 ≤ now - s.lastAlertTs then now else s.lastAlertTs) ∧
    (now - s.lastAlertTs < 1500 → Monitor.sendWebAlert s now m = s) ∧
    (∀ (u : User) (sid : String), s.userRef = some u → s.sessionId = some sid → sid ≠ "" →
      ((Monitor.sendWebAlert s now m).posts = s.posts ++ [alertPayload u sid m]
        ↔ 1500 ≤ now - s.lastAlertTs) ∧
      (s.lastAlertTs = 0 →
        ((Monitor.sendWebAlert s now m).posts = s.posts ++ [alertPayload u sid m]
          ↔ 1500 ≤ now))) ∧
    (∀ (user userRef : Option User) (examId : Option String) (iso : String),
      (Monitor.mount user userRef examId).lastAlertTs = 0 ∧
      (Monitor.handleStartExam (Monitor.mount user userRef examId) iso).lastAlertTs = 0) ∧
    (Monitor.sendWebAlert s (s.lastAlertTs + 1500) m).lastAlertTs = s.lastAlertTs + 1500 ∧
    (Monitor.sendWebAlert s (s.lastAlertTs + 1499) m) = s := by
  have hts := Monitor.sendWebAlert_lastAlertTs s now m
  refine ⟨hts, Monitor.sendWebAlert_throttled s now m, ?_, ?_, ?_, ?_⟩
  · intro u sid hu hsid hne
    have key : (Monitor.sendWebAlert s now m).posts = s.posts ++ [alertPayload u sid m]
        ↔ 1500 ≤ now - s.lastAlertTs := by
      constructor
      · intro h
        by_contra hn
        have ht : now - s.lastAlertTs < 1500 := by omega
        rw [Monitor.sendWebAlert_throttled s now m ht] at h
        simp at h
      · intro h
        rw [Monitor.sendWebAlert_pass s now m u sid h hu hsid hne]
    refine ⟨key, fun h0 => ?_⟩
    rw [key, h0]
    simp
  · intro user userRef examId iso
    have h0 : (Monitor.mount user userRef examId).lastAlertTs = 0 := by
      simp [Monitor.mount, Monitor.effect, State.init]
    exact ⟨h0, by rw [Monitor.handleStartExam_lastAlertTs, h0]⟩
  · rw [Monitor.sendWebAlert_lastAlertTs]
    simp
  · exact Monitor.sendWebAlert_throttled s _ m (by simp)

/-- C19 (witness). In the started session of `alice` (timestamp 0), an alert at
clock value 1500 is posted. -/
theorem c19_throttle_function_witness :
    (Monitor.sendWebAlert Monitor.started 1500 "WINDOW_BLUR").posts
      = Monitor.started.posts
          ++ [alertPayload ⟨"alice"⟩ "exam_42_alice_20240101T120000000Z" "WINDOW_BLUR"] :=
  (((c19_throttle_function Monitor.started 1500 "WINDOW_BLUR").2.2.1
      ⟨"alice"⟩ "exam_42_alice_20240101T120000000Z" (by decide) (by decide) (by decide)).2
    (by decide)).2 (by decide)

namespace ThemeProvider

theorem mem_removeLightDark (cl : List String) (c : String) :
    c ∈ removeLightDark cl ↔ c ∈ cl ∧ c ≠ "light" ∧ c ≠ "dark" := by
  simp [removeLightDark, List.mem_filter]

theorem onlyClass_add (cl : List String) (c : String) (hc : c = "light" ∨ c = "dark") :
    OnlyClass (classListAdd (removeLightDark cl) c) c := by
  have hnot : c ∉ removeLightDark cl := by
    rw [mem_removeLightDark]
    rcases hc with h | h <;> simp [h]
  have hadd : classListAdd (removeLightDark cl) c = removeLightDark cl ++ [c] := by
    simp [classListAdd, hnot]
  refine ⟨hc, ?_, ?_⟩
  · rw [hadd, List.count_append, List.count_eq_zero_of_not_mem hnot]
    simp
  · intro d hd hne
    rw [hadd, List.mem_append, mem_removeLightDark]
    rintro (h | h)
    · rcases hd with hd | hd
      · exact h.2.1 hd
      · exact h.2.2 hd
    · exact hne (by simpa using h)

theorem mem_add_other (cl : List String) (t c : String) (h : c ≠ t) :
    c ∈ classListAdd cl t ↔ c ∈ cl := by
  unfold classListAdd
  split
  · rfl
  · simp [h]

end ThemeProvider

/-- C20. For every theme among `light`, `dark` and `system`, every OS
colour-scheme preference and every prior class list of the root element, after
the layout effect of `ThemeProvider` the root carries exactly one of the
classes `light` and `dark`: the theme itself, or the OS preference when the
theme is `system`; every other class is kept. The OS-change handler sets that
one class to the new preference when the theme is `system`, leaves the class
list as it is otherwise, and so keeps the invariant. -/
theorem c20_theme_root_class (theme : String) (w : ThemeProvider.Window) (isDark : Bool)
    (ht : theme = "light" ∨ theme = "dark" ∨ theme = "system") :
    (∃ w2, ThemeProvider.layoutEffect theme (some w) = some w2 ∧
      ThemeProvider.OnlyClass w2.classList
        (if theme = "system" then (if w.prefersDark then "dark" else "light") else theme) ∧
      (∀ c, c ≠ "light" → c ≠ "dark" → (c ∈ w2.classList ↔ c ∈ w.classList))) ∧
    (theme = "system" →
      ThemeProvider.OnlyClass (ThemeProvider.handler theme w isDark).classList
        (if isDark then "dark" else "light")) ∧
    (theme ≠ "system" → (ThemeProvider.handler theme w isDark).classList = w.classList) ∧
    (∀ c, ThemeProvider.OnlyClass w.classList c →
      ∃ c2, ThemeProvider.OnlyClass (ThemeProvider.handler theme w isDark).classList c2) := by
  have hpref : ∀ b : Bool, (if b then "dark" else "light") = "light" ∨
      (if b then "dark" else "light") = "dark" := by
    intro b; cases b <;> simp
  have hsys : theme = "system" →
      ThemeProvider.OnlyClass (ThemeProvider.handler theme w isDark).classList
        (if isDark then "dark" else "light") := by
    intro h
    subst h
    simp only [ThemeProvider.handler, beq_self_eq_true, if_true]
    exact ThemeProvider.onlyClass_add w.classList _ (hpref isDark)
  have hother : theme ≠ "system" →
      (ThemeProvider.handler theme w isDark).classList = w.classList := by
    intro h
    simp [ThemeProvider.handler, h]
  refine ⟨⟨_, rfl, ?_, ?_⟩, hsys, hother, ?_⟩
  · by_cases h : theme = "system"
    · subst h
      simp only [ThemeProvider.apply, beq_self_eq_true, if_true]
      exact ThemeProvider.onlyClass_add w.classList _ (hpref w.prefersDark)
    · have hb : (theme == "system") = false := by simpa using h
      simp only [ThemeProvider.apply, hb, Bool.false_eq_true, if_false, h]
      refine ThemeProvider.onlyClass_add w.classList theme ?_
      rcases ht with ht | ht | ht
      · exact Or.inl ht
      · exact Or.inr ht
      · exact absurd ht h
  · intro c h1 h2
    have hc : ∀ t, (t = "light" ∨ t = "dark") →
        (c ∈ ThemeProvider.classListAdd (ThemeProvider.removeLightDark w.classList) t
          ↔ c ∈ w.classList) := by
      intro t htt
      have hne : c ≠ t := by
        rcases htt with h | h <;> rw [h] <;> assumption
      rw [ThemeProvider.mem_add_other _ t c hne, ThemeProvider.mem_removeLightDark]
      exact ⟨fun h => h.1, fun h => ⟨h, h1, h2⟩⟩
    by_cases h : theme = "system"
    · subst h
      simp only [ThemeProvider.apply, beq_self_eq_true, if_true]
      exact hc _ (hpref w.prefersDark)
    · have hb : (theme == "system") = false := by simpa using h
      simp only [ThemeProvider.apply, hb, Bool.false_eq_true, if_false]
      refine hc theme ?_
      rcases ht with ht | ht | ht
      · exact Or.inl ht
      · exact Or.inr ht
      · exact absurd ht h
  · intro c hc
    by_cases h : theme = "system"
    · exact ⟨_, hsys h⟩
    · exact ⟨c, by rw [hother h]; exact hc⟩

/-- C20 (witness). Theme `system`, OS preference dark, and a root that carried
`app`, `light` and `dark`: afterwards `dark` is the one theme class. -/
theorem c20_theme_root_class_witness :
    ∃ w2, ThemeProvider.layoutEffect "system"
        (some { classList := ["app", "light", "dark"], prefersDark := true }) = some w2 ∧
      ThemeProvider.OnlyClass w2.classList
        (if "system" = "system" then (if true then "dark" else "light") else "system") ∧
      (∀ c, c ≠ "light" → c ≠ "dark" → (c ∈ w2.classList ↔ c ∈ ["app", "light", "dark"])) :=
  (c20_theme_root_class "system" { classList := ["app", "light", "dark"], prefersDark := true }
    false (Or.inr (Or.inr rfl))).1

end ProctorX
